import Mathlib

/-!
Verification development for the streaming NMEA parser of the bus-track
repository (src/pico_tracker/lib/micropyGPS.py, class MicropyGPS).

Shallow embedding conventions:
* Python `float` values are modelled as exact rationals (ℚ); the claims
  settled here concern algebraic structure (which fields are written, signs,
  deg + min/60 form), not binary rounding.
* Python `int(s)` / `float(s)` / `int(s, 16)` are modelled for the ASCII
  strings that can occur in parser segments (characters with codes 10..126):
  optional surrounding whitespace, optional sign, digits with the
  numeric-literal underscore rule, and for float a fraction and exponent.
  The `inf` / `nan` float literals are not modelled (no claim involves them).
* Python `bool` is a subtype of `int` (`True == 1`, `False == 0`); the
  `fix_stat` attribute, which the source assigns both integers and booleans,
  is therefore modelled as `Int`, with `True` ↦ 1 and `False` ↦ 0.
* The attributes `gps_segments`, `crc_xor`, `process_crc` and `char_count`
  are never assigned in `__init__`; they are all first assigned, together,
  in `new_sentence`.  They are modelled as one `Option StreamState` field:
  `none` is the fresh object, where reading any of them raises
  `AttributeError`.
* Exceptions that can escape the modelled code are `AttributeError` (missing
  attribute) and `IndexError` (list subscript out of range); `ValueError`
  from the numeric constructors is always caught by the source at the call
  sites modelled here, so those constructors simply return `Option`.
* Attributes of the source object that none of the modelled methods read or
  write (`sentence_valid`, `parsed_sentences`, `log_handle`, `fix_type`,
  `satellites_in_view`, `satellites_used`, `last_sv_sentence`,
  `total_sv_sentences`, `satellite_data`, `pdop`, `vdop`) are omitted.
  The `log_en` flag is kept (it is read by `update`), but the guarded
  `log_handle.write` call is external file I/O with no effect on parser
  state and is modelled as a no-op; nothing in the repository ever sets
  `log_en` to `True`.
-/

/-- Characters that Python's numeric constructors strip as whitespace,
restricted to codes below 127: tab, LF, VT, FF, CR, space. -/
def isPySpace (c : Char) : Bool :=
  c.toNat = 9 || c.toNat = 10 || c.toNat = 11 || c.toNat = 12 || c.toNat = 13 ||
  c.toNat = 32

/-- Strip leading and trailing Python whitespace from a character list. -/
def pyStrip (l : List Char) : List Char :=
  ((l.dropWhile isPySpace).reverse.dropWhile isPySpace).reverse

/-- Accumulate decimal digits with Python's numeric-literal underscore rule
(an underscore must sit between two digits).  Returns the value and the
number of digits consumed (underscores excluded), continuing from an
already-read prefix. -/
def pyDigitsCore : Nat → Nat → List Char → Option (Nat × Nat)
  | acc, cnt, [] => some (acc, cnt)
  | acc, cnt, c :: rest =>
    if c.isDigit then pyDigitsCore (10 * acc + (c.toNat - 48)) (cnt + 1) rest
    else if c = '_' then
      match rest with
      | [] => none
      | d :: rest2 =>
        if d.isDigit then pyDigitsCore (10 * acc + (d.toNat - 48)) (cnt + 1) rest2
        else none
    else none

/-- A nonempty run of decimal digits (underscores between digits allowed):
value and digit count. -/
def pyDigits (l : List Char) : Option (Nat × Nat) :=
  match l with
  | [] => none
  | c :: rest => if c.isDigit then pyDigitsCore (c.toNat - 48) 1 rest else none

/-- Optional sign followed by digits, as an integer. -/
def pyIntCore (l : List Char) : Option Int :=
  match l with
  | '+' :: rest => (pyDigits rest).map (fun p => (p.1 : Int))
  | '-' :: rest => (pyDigits rest).map (fun p => -(p.1 : Int))
  | rest => (pyDigits rest).map (fun p => (p.1 : Int))

/-- Python `int(s)` (base 10) on the ASCII strings occurring in parser
segments. -/
def pyInt (s : String) : Option Int :=
  pyIntCore (pyStrip s.data)

/-- Split a list at the first character satisfying `p`; the second component
is `none` when no such character occurs. -/
def splitAtFirst (p : Char → Bool) : List Char → List Char × Option (List Char)
  | [] => ([], none)
  | c :: rest =>
    if p c then ([], some rest)
    else
      let r := splitAtFirst p rest
      (c :: r.1, r.2)

/-- The mantissa of a Python float literal: `digits`, `digits.`, `.digits`,
or `digits.digits`. -/
def pyMantissa (l : List Char) : Option ℚ :=
  let ip := (splitAtFirst (fun c => c = '.') l).1
  match (splitAtFirst (fun c => c = '.') l).2 with
  | none => (pyDigits ip).map (fun p => (p.1 : ℚ))
  | some fp =>
    match ip, fp with
    | [], [] => none
    | [], _ => (pyDigits fp).map (fun p => (p.1 : ℚ) / (10 : ℚ) ^ p.2)
    | _, [] => (pyDigits ip).map (fun p => (p.1 : ℚ))
    | _, _ =>
      match pyDigits ip, pyDigits fp with
      | some a, some b => some ((a.1 : ℚ) + (b.1 : ℚ) / (10 : ℚ) ^ b.2)
      | _, _ => none

/-- Unsigned part of a Python float literal: mantissa with an optional
`e`/`E` exponent. -/
def pyFloatCore (l : List Char) : Option ℚ :=
  let mant := (splitAtFirst (fun c => c = 'e' || c = 'E') l).1
  match (splitAtFirst (fun c => c = 'e' || c = 'E') l).2 with
  | none => pyMantissa mant
  | some ex =>
    match pyMantissa mant, pyIntCore ex with
    | some m, some e => some (m * (10 : ℚ) ^ (e : Int))
    | _, _ => none

/-- Python `float(s)` on the ASCII strings occurring in parser segments
(`inf` and `nan` literals are not modelled; no claim involves them). -/
def pyFloat (s : String) : Option ℚ :=
  match pyStrip s.data with
  | '+' :: rest => pyFloatCore rest
  | '-' :: rest => (pyFloatCore rest).map Neg.neg
  | rest => pyFloatCore rest

/-- Value of one hexadecimal digit. -/
def hexVal (c : Char) : Option Nat :=
  if 48 ≤ c.toNat ∧ c.toNat ≤ 57 then some (c.toNat - 48)
  else if 97 ≤ c.toNat ∧ c.toNat ≤ 102 then some (c.toNat - 87)
  else if 65 ≤ c.toNat ∧ c.toNat ≤ 70 then some (c.toNat - 55)
  else none

/-- Python `int(t, 16)` restricted to two-character strings, the only shape
at its call site (`update` checks the field length is exactly 2 first).
A two-character base-16 literal is two hex digits, or one hex digit with a
sign or a whitespace character around it (a `0x` prefix needs at least three
characters). -/
def pyIntHex2 (t : String) : Option Int :=
  match t.data with
  | [a, b] =>
    match hexVal a, hexVal b with
    | some x, some y => some ((16 * x + y : Nat) : Int)
    | _, _ =>
      if a = '+' then (hexVal b).map (fun n => (n : Int))
      else if a = '-' then (hexVal b).map (fun n => -(n : Int))
      else if isPySpace a then (hexVal b).map (fun n => (n : Int))
      else if isPySpace b then (hexVal a).map (fun n => (n : Int))
      else none
  | _ => none

/-- Python string slice `s[i:j]` (never raises; clamps to the string). -/
def pySlice (s : String) (i j : Nat) : String :=
  String.mk ((s.data.drop i).take (j - i))

/-- Python string slice `s[i:]`. -/
def pyDropFrom (s : String) (i : Nat) : String :=
  String.mk (s.data.drop i)

/-- Exceptions that can escape the modelled methods. -/
inductive PyExc where
  | attributeError
  | indexError
deriving DecidableEq, Repr

/-- Python list subscript `l[i]` for a nonnegative index: `IndexError` when
out of range. -/
def listGet (l : List String) (i : Nat) : Except PyExc String :=
  if h : i < l.length then .ok (l.get ⟨i, h⟩) else .error .indexError

/-- The four stream-handler attributes that `__init__` never assigns; they
are first assigned, all together, in `new_sentence`. -/
structure StreamState where
  gps_segments : List String
  crc_xor : Nat
  process_crc : Bool
  char_count : Nat
deriving DecidableEq, Repr

/-- A stored coordinate: the Python list `[degrees, minutes, hemisphere]`. -/
structure Coord where
  degrees : Int
  minutes : ℚ
  hemi : String
deriving DecidableEq, Repr

/-- The parser object state (attributes read or written by the modelled
methods; see the header comment for the omitted ones). -/
structure GPSState where
  sentence_active : Bool
  active_segment : Nat
  crc_fails : Nat
  clean_sentences : Nat
  log_en : Bool
  local_offset : Int
  coord_format : String
  timestamp : Int × Int × ℚ
  date : Int × Int × Int
  _latitude : Coord
  _longitude : Coord
  speed : ℚ × ℚ × ℚ
  course : ℚ
  altitude : ℚ
  geoid_height : ℚ
  satellites_in_use : Int
  hdop : ℚ
  valid : Bool
  fix_stat : Int
  stream : Option StreamState
deriving DecidableEq, Repr

/-- `MicropyGPS.__init__` (the `timezone` parameter is unused by the
source). Note `stream := none`: the four stream-handler attributes are not
assigned here. -/
def MicropyGPS.pyInit (local_offset : Int) (location_formatting : String) : GPSState :=
  { sentence_active := false
    active_segment := 0
    crc_fails := 0
    clean_sentences := 0
    log_en := false
    local_offset := local_offset
    coord_format := location_formatting
    timestamp := (0, 0, 0)
    date := (0, 0, 0)
    _latitude := ⟨0, 0, "N"⟩
    _longitude := ⟨0, 0, "W"⟩
    speed := (0, 0, 0)
    course := 0
    altitude := 0
    geoid_height := 0
    satellites_in_use := 0
    hdop := 0
    valid := false
    fix_stat := 0
    stream := none }

/-- `MicropyGPS.new_sentence`: adjust object flags in preparation for a new
sentence. -/
def MicropyGPS.new_sentence (s : GPSState) : GPSState :=
  { s with
    stream := some { gps_segments := [""], crc_xor := 0, process_crc := true, char_count := 0 }
    active_segment := 0
    sentence_active := true }

/-- `MicropyGPS.SENTENCE_LIMIT`. -/
def SENTENCE_LIMIT : Nat := 90

/-- The UTC-timestamp statement block shared verbatim by `gprmc` and
`gpgga`: empty field gives a zero triple; otherwise `int(u[0:2])` adjusted
by the local offset modulo 24 (Python `%` with a positive modulus is
`Int.emod`), `int(u[2:4])` and `float(u[4:])`; `none` is the caught
`ValueError`. -/
def pyTimeField (local_offset : Int) (u : String) : Option (Int × Int × ℚ) :=
  if u.isEmpty then
    some (0, 0, 0)
  else
    match pyInt (pySlice u 0 2), pyInt (pySlice u 2 4), pyFloat (pyDropFrom u 4) with
    | some hrs, some mins, some sec => some ((hrs + local_offset) % 24, mins, sec)
    | _, _, _ => none

/-- The date statement block of `gprmc`: empty field gives a zero triple;
otherwise three 2-digit integers. -/
def pyDateField (ds : String) : Option (Int × Int × Int) :=
  if ds.isEmpty then
    some (0, 0, 0)
  else
    match pyInt (pySlice ds 0 2), pyInt (pySlice ds 2 4), pyInt (pySlice ds 4 6) with
    | some dd, some mm, some yy => some (dd, mm, yy)
    | _, _, _ => none

/-- The HDOP block of `gpgga`: `float(segs[8])`, with both `ValueError` and
`IndexError` caught and defaulted to 0.0. -/
def ggaHdop (segs : List String) : ℚ :=
  match listGet segs 8 with
  | .error _ => 0
  | .ok s8 =>
    match pyFloat s8 with
    | none => 0
    | some v => v

/-- `MicropyGPS.gprmc`: parse an RMC sentence from `self.gps_segments`.
The `try`/`except ValueError` blocks of the source catch only `ValueError`
(modelled as `Option` results of the numeric constructors, turned into
`return False`); a list subscript out of range raises `IndexError`, which
the source does not catch here and which therefore propagates. -/
def MicropyGPS.gprmc (s : GPSState) : Except PyExc (GPSState × Bool) :=
  match s.stream with
  | none => .error .attributeError
  | some st =>
    let segs := st.gps_segments
    -- UTC Timestamp
    match listGet segs 1 with
    | .error e => .error e
    | .ok utc_string =>
      match pyTimeField s.local_offset utc_string with
      | none => .ok (s, false)
      | some ts =>
        let s := { s with timestamp := ts }
        -- Date stamp
        match listGet segs 9 with
        | .error e => .error e
        | .ok date_string =>
          match pyDateField date_string with
          | none => .ok (s, false)
          | some d =>
            let s := { s with date := d }
            -- Check Receiver Data Valid Flag
            match listGet segs 2 with
            | .error e => .error e
            | .ok flag =>
              if flag = "A" then
                -- Longitude / Latitude
                match listGet segs 3 with
                | .error e => .error e
                | .ok l3 =>
                  match pyInt (pySlice l3 0 2), pyFloat (pyDropFrom l3 2) with
                  | some lat_degs, some lat_mins =>
                    match listGet segs 4 with
                    | .error e => .error e
                    | .ok lat_hemi =>
                      match listGet segs 5 with
                      | .error e => .error e
                      | .ok l5 =>
                        match pyInt (pySlice l5 0 3), pyFloat (pyDropFrom l5 3) with
                        | some lon_degs, some lon_mins =>
                          match listGet segs 6 with
                          | .error e => .error e
                          | .ok lon_hemi =>
                            if ¬ (lat_hemi = "N" ∨ lat_hemi = "S" ∨ lat_hemi = "E" ∨ lat_hemi = "W") then
                              .ok (s, false)
                            else if ¬ (lon_hemi = "N" ∨ lon_hemi = "S" ∨ lon_hemi = "E" ∨ lon_hemi = "W") then
                              .ok (s, false)
                            else
                              -- Speed
                              match listGet segs 7 with
                              | .error e => .error e
                              | .ok s7 =>
                                match pyFloat s7 with
                                | none => .ok (s, false)
                                | some spd_knt =>
                                  -- Course
                                  match listGet segs 8 with
                                  | .error e => .error e
                                  | .ok s8 =>
                                    match if s8.isEmpty then some (0 : ℚ) else pyFloat s8 with
                                    | none => .ok (s, false)
                                    | some course =>
                                      -- Update Object Data (fix_stat := 1 is Python `True`)
                                      .ok ({ s with
                                        _latitude := ⟨lat_degs, lat_mins, lat_hemi⟩
                                        _longitude := ⟨lon_degs, lon_mins, lon_hemi⟩
                                        speed := (spd_knt, spd_knt * (1151 / 1000 : ℚ),
                                          spd_knt * (1852 / 1000 : ℚ))
                                        course := course
                                        valid := true
                                        fix_stat := 1 }, true)
                        | _, _ => .ok (s, false)
                  | _, _ => .ok (s, false)
              else
                -- Clear Position Data if Sentence is 'Invalid' (fix_stat := 0 is `False`)
                .ok ({ s with
                  _latitude := ⟨0, 0, "N"⟩
                  _longitude := ⟨0, 0, "W"⟩
                  speed := (0, 0, 0)
                  course := 0
                  valid := false
                  fix_stat := 0 }, true)

/-- `MicropyGPS.gpgga`: parse a GGA sentence from `self.gps_segments`.
The first `try` block catches `(ValueError, IndexError)` and returns
`False`; the HDOP block catches both and defaults to 0.0; the latitude /
longitude block and the altitude block catch only `ValueError`, so an
`IndexError` there propagates out of the method. -/
def MicropyGPS.gpgga (s : GPSState) : Except PyExc (GPSState × Bool) :=
  match s.stream with
  | none => .error .attributeError
  | some st =>
    let segs := st.gps_segments
    -- UTC Timestamp / Satellites in Use / Fix Status: except (ValueError, IndexError)
    let head? : Option ((Int × Int × ℚ) × Int × Int) :=
      match listGet segs 1 with
      | .error _ => none
      | .ok utc_string =>
        match pyTimeField s.local_offset utc_string with
        | none => none
        | some ts =>
          match listGet segs 7 with
          | .error _ => none
          | .ok s7 =>
            match pyInt s7 with
            | none => none
            | some satellites_in_use =>
              match listGet segs 6 with
              | .error _ => none
              | .ok s6 =>
                match pyInt s6 with
                | none => none
                | some fix_stat => some (ts, satellites_in_use, fix_stat)
    match head? with
    | none => .ok (s, false)
    | some (ts, satellites_in_use, fix_stat) =>
      -- Horizontal Dilution of Precision: except (ValueError, IndexError)
      let hdop : ℚ := ggaHdop segs
      -- Process Location and Speed Data if Fix is GOOD (truthiness of the int)
      if fix_stat ≠ 0 then
        match listGet segs 2 with
        | .error e => .error e
        | .ok l2 =>
          match pyInt (pySlice l2 0 2), pyFloat (pyDropFrom l2 2) with
          | some lat_degs, some lat_mins =>
            match listGet segs 3 with
            | .error e => .error e
            | .ok lat_hemi =>
              match listGet segs 4 with
              | .error e => .error e
              | .ok l4 =>
                match pyInt (pySlice l4 0 3), pyFloat (pyDropFrom l4 3) with
                | some lon_degs, some lon_mins =>
                  match listGet segs 5 with
                  | .error e => .error e
                  | .ok lon_hemi =>
                    if ¬ (lat_hemi = "N" ∨ lat_hemi = "S" ∨ lat_hemi = "E" ∨ lat_hemi = "W") then
                      .ok (s, false)
                    else if ¬ (lon_hemi = "N" ∨ lon_hemi = "S" ∨ lon_hemi = "E" ∨ lon_hemi = "W") then
                      .ok (s, false)
                    else
                      -- Altitude / Height Above Geoid: except ValueError only;
                      -- on ValueError both default (the second subscript is
                      -- then never evaluated)
                      match listGet segs 9 with
                      | .error e => .error e
                      | .ok s9 =>
                        let ag? : Except PyExc (ℚ × ℚ) :=
                          match pyFloat s9 with
                          | none => .ok (0, 0)
                          | some alt =>
                            match listGet segs 11 with
                            | .error e => .error e
                            | .ok s11 =>
                              match pyFloat s11 with
                              | none => .ok (0, 0)
                              | some geo => .ok (alt, geo)
                        match ag? with
                        | .error e => .error e
                        | .ok (altitude, geoid_height) =>
                          let s := { s with
                            _latitude := ⟨lat_degs, lat_mins, lat_hemi⟩
                            _longitude := ⟨lon_degs, lon_mins, lon_hemi⟩
                            altitude := altitude
                            geoid_height := geoid_height }
                          .ok ({ s with
                            timestamp := ts
                            satellites_in_use := satellites_in_use
                            hdop := hdop
                            fix_stat := fix_stat }, true)
                | _, _ => .ok (s, false)
          | _, _ => .ok (s, false)
      else
        -- Update Object Data (unconditional tail)
        .ok ({ s with
          timestamp := ts
          satellites_in_use := satellites_in_use
          hdop := hdop
          fix_stat := fix_stat }, true)

/-- Return shape of the `latitude` / `longitude` properties: the source
returns differently shaped Python lists depending on `coord_format`. -/
inductive CoordView where
  | dd (degrees : ℚ) (hemi : String)
  | dms (degrees : Int) (minutes : Int) (seconds : ℚ) (hemi : String)
  | ddm (degrees : Int) (minutes : ℚ) (hemi : String)
deriving DecidableEq, Repr

/-- The `latitude` property: format latitude data per `coord_format`.
`divmod(m, 1)` on a float is `(⌊m⌋, m - ⌊m⌋)`; `int` of its first component
is `⌊m⌋`. -/
def MicropyGPS.latitude (s : GPSState) : CoordView :=
  if s.coord_format = "dd" then
    .dd ((s._latitude.degrees : ℚ) + s._latitude.minutes / 60) s._latitude.hemi
  else if s.coord_format = "dms" then
    .dms s._latitude.degrees ⌊s._latitude.minutes⌋
      ((s._latitude.minutes - ⌊s._latitude.minutes⌋) * 60) s._latitude.hemi
  else
    .ddm s._latitude.degrees s._latitude.minutes s._latitude.hemi

/-- The `longitude` property. -/
def MicropyGPS.longitude (s : GPSState) : CoordView :=
  if s.coord_format = "dd" then
    .dd ((s._longitude.degrees : ℚ) + s._longitude.minutes / 60) s._longitude.hemi
  else if s.coord_format = "dms" then
    .dms s._longitude.degrees ⌊s._longitude.minutes⌋
      ((s._longitude.minutes - ⌊s._longitude.minutes⌋) * 60) s._longitude.hemi
  else
    .ddm s._longitude.degrees s._longitude.minutes s._longitude.hemi

/-- The sentence-dispatch block of `update` (lines: `if self.gps_segments[0]
in ['GPRMC', 'GNRMC']: self.gprmc()` etc.): look up field 0 and run the
matching decoder, whose return value the source discards. -/
def MicropyGPS.validDispatch (s3 : GPSState) (segs : List String) : Except PyExc GPSState :=
  match listGet segs 0 with
  | .error e => .error e
  | .ok t0 =>
    if t0 = "GPRMC" ∨ t0 = "GNRMC" then (MicropyGPS.gprmc s3).map Prod.fst
    else if t0 = "GPGGA" ∨ t0 = "GNGGA" then (MicropyGPS.gpgga s3).map Prod.fst
    else .ok s3

/-- The end of an in-sentence `update` call for a `','` or ordinary data
character (source lines 347-365): on a valid sentence bump the
clean-sentence counter, clear the active flag, dispatch, and discard the
segment buffer; then apply the sentence-length ceiling and `return None`. -/
def MicropyGPS.sentenceEnd (s2 : GPSState) (st2 : StreamState) (valid_sentence : Bool) :
    Except PyExc (GPSState × Option String) :=
  -- If a Valid Sentence Was received and it's a supported sentence, parse it
  let after : Except PyExc GPSState :=
    if valid_sentence then
      let s3 := { s2 with
        clean_sentences := s2.clean_sentences + 1
        sentence_active := false }
      match MicropyGPS.validDispatch s3 st2.gps_segments with
      | .error e => .error e
      | .ok s4 =>
        -- Clear Active Sentence: self.gps_segments = []
        .ok { s4 with stream := s4.stream.map (fun stx => { stx with gps_segments := [] }) }
    else .ok s2
  match after with
  | .error e => .error e
  | .ok s5 =>
    -- Check that the sentence buffer isn't filling up
    match s5.stream with
    | none => .error .attributeError
    | some st5 =>
      .ok ((if st5.char_count > SENTENCE_LIMIT then { s5 with sentence_active := false }
        else s5), none)

/-- `MicropyGPS.update`: process one input character.  The Python return
value is the second component; the source returns `None` on every path
(lines 309, 318 and 365), so it is always `none` here.  The first statement
of the in-range branch is `self.char_count += 1`, which raises
`AttributeError` on a fresh object. -/
def MicropyGPS.update (s : GPSState) (new_char : Char) : Except PyExc (GPSState × Option String) :=
  let ascii_char := new_char.toNat
  -- Validate new_char is a printable char
  if 10 ≤ ascii_char ∧ ascii_char ≤ 126 then
    match s.stream with
    | none => .error .attributeError
    | some st0 =>
      let st := { st0 with char_count := st0.char_count + 1 }
      let s := { s with stream := some st }
      -- if self.log_en: self.log_handle.write(new_char)  -- external file I/O
      -- Check if a new string is starting ($)
      if new_char = '$' then
        .ok (MicropyGPS.new_sentence s, none)
      else if s.sentence_active then
        -- Check if sentence is ending (*)
        if new_char = '*' then
          .ok ({ s with
            active_segment := s.active_segment + 1
            stream := some { st with
              process_crc := false
              gps_segments := st.gps_segments ++ [""] } }, none)
        else
          -- the ',' branch and the default branch fall through to the
          -- common tail; `valid_sentence` is the third component
          let step : Except PyExc (GPSState × StreamState × Bool) :=
            if new_char = ',' then
              .ok ({ s with active_segment := s.active_segment + 1 },
                { st with gps_segments := st.gps_segments ++ [""] }, false)
            else
              match listGet st.gps_segments s.active_segment with
              | .error e => .error e
              | .ok seg =>
                let seg := seg.push new_char
                let st := { st with gps_segments := st.gps_segments.set s.active_segment seg }
                -- When CRC input is disabled, sentence is nearly complete
                if st.process_crc = false then
                  if seg.length = 2 then
                    match pyIntHex2 seg with
                    | some final_crc =>
                      if (st.crc_xor : Int) = final_crc then
                        .ok (s, st, true)
                      else
                        .ok ({ s with crc_fails := s.crc_fails + 1 }, st, false)
                    | none => .ok (s, st, false)  -- deformed CRC value
                  else .ok (s, st, false)
                else .ok (s, st, false)
          match step with
          | .error e => .error e
          | .ok (s1, st1, valid_sentence) =>
            -- Update CRC
            let st2 := if st1.process_crc then { st1 with crc_xor := st1.crc_xor ^^^ ascii_char }
              else st1
            MicropyGPS.sentenceEnd { s1 with stream := some st2 } st2 valid_sentence
      else
        .ok (s, none)
  else
    -- Tell Host no data is available
    .ok (s, none)

/-- Feed a list of characters through `update`, keeping the final state. -/
def MicropyGPS.feed (s : GPSState) : List Char → Except PyExc GPSState
  | [] => .ok s
  | c :: rest =>
    match MicropyGPS.update s c with
    | .error e => .error e
    | .ok (s2, _) => MicropyGPS.feed s2 rest

/-- Feed a list of characters through `update`, keeping the final state and
the list of per-call return values. -/
def MicropyGPS.feedOuts (s : GPSState) : List Char → Except PyExc (GPSState × List (Option String))
  | [] => .ok (s, [])
  | c :: rest =>
    match MicropyGPS.update s c with
    | .error e => .error e
    | .ok (s2, o) =>
      match MicropyGPS.feedOuts s2 rest with
      | .error e => .error e
      | .ok (s3, os) => .ok (s3, o :: os)

/-- XOR of the ordinal values of a character list. -/
def xorCodes (l : List Char) : Nat :=
  l.foldl (fun a c => a ^^^ c.toNat) 0

/-- The printable range accepted by `update`. -/
def inRange (c : Char) : Bool :=
  10 ≤ c.toNat && c.toNat ≤ 126

deriving instance DecidableEq for Except

set_option maxRecDepth 8192

/-- A parser state whose stream-handler attributes exist (what `__init__`
was evidently meant to produce; see `claim2_update_raises`): the state
right after a `new_sentence` call on a fresh object. -/
def readyState : GPSState :=
  MicropyGPS.new_sentence (MicropyGPS.pyInit 0 "ddm")

/-- The spec's RMC round-trip example sentence. -/
def exampleRMC : String :=
  "$GPRMC,123519,A,4807.038,N,01131.000,E,022.4,084.4,230394,003.1,W*6A"

/-- State for the C7 counterexample: decimal-degree formatting with a
southern-hemisphere latitude and western-hemisphere longitude stored. -/
def c7State : GPSState :=
  { MicropyGPS.pyInit 0 "dd" with
    _latitude := ⟨48, 7038 / 1000, "S"⟩
    _longitude := ⟨11, 31, "W"⟩ }

/-- Segments of a checksum-valid RMC sentence whose latitude hemisphere
field is `"X"`. -/
def c5Segs : List String :=
  ["GPRMC", "123519", "A", "4807.038", "X", "01131.000", "E", "022.4", "084.4",
    "230394", "003.1", "W"]

/-- A decoder input state carrying `c5Segs`, with a prior timestamp. -/
def c5WitState : GPSState :=
  { MicropyGPS.pyInit 0 "ddm" with
    timestamp := (1, 2, 3)
    stream := some ⟨c5Segs, 0, false, 0⟩ }

/-- The state `gprmc` produces from `c5WitState`: decode aborted, but the
timestamp and date fields were already overwritten. -/
def c5WitOut : GPSState :=
  { c5WitState with timestamp := (12, 35, 19), date := (23, 3, 94) }

/-- A ready parser state that already holds a (fake) prior timestamp. -/
def c5Start : GPSState :=
  { readyState with timestamp := (1, 2, 3) }

/-- A ready parser state with a (fake) prior GGA fix-status code of 5. -/
def c6Start : GPSState :=
  { readyState with fix_stat := 5 }

/-- A decoder input state for a no-fix GGA sentence, with `valid` true from
an earlier RMC decode. -/
def c6GgaState : GPSState :=
  { MicropyGPS.pyInit 0 "ddm" with
    valid := true
    stream := some ⟨["GPGGA", "123519", "4807.038", "N", "01131.000", "E", "0", "08", "0.9"],
      0, false, 0⟩ }

/-- The state `gpgga` produces from `c6GgaState`. -/
def c6GgaOut : GPSState :=
  { c6GgaState with
    timestamp := (12, 35, 19)
    satellites_in_use := 8
    hdop := 9 / 10
    fix_stat := 0 }

/-- A decoder input state for a valid RMC sentence, with a prior GGA
fix-status code of 7. -/
def c6RmcState : GPSState :=
  { MicropyGPS.pyInit 0 "ddm" with
    fix_stat := 7
    stream := some ⟨["GPRMC", "123519", "A", "4807.038", "N", "01131.000", "E", "022.4",
      "084.4", "230394", "003.1", "W"], 0, false, 0⟩ }

/-- The state `gprmc` produces from `c6RmcState`. -/
def c6RmcOut : GPSState :=
  { c6RmcState with
    timestamp := (12, 35, 19)
    date := (23, 3, 94)
    _latitude := ⟨48, 3519 / 500, "N"⟩
    _longitude := ⟨11, 31, "E"⟩
    speed := (112 / 5, 112 / 5 * (1151 / 1000), 112 / 5 * (1852 / 1000))
    course := 422 / 5
    valid := true
    fix_stat := 1 }

/-- A decoder input state for the C8 witness: a no-fix GGA sentence with
distinctive prior position data. -/
def c8State : GPSState :=
  { MicropyGPS.pyInit 0 "ddm" with
    _latitude := ⟨12, 5, "S"⟩
    _longitude := ⟨7, 8, "E"⟩
    altitude := 99
    geoid_height := 55
    stream := some ⟨["GPGGA", "123519", "4807.038", "N", "01131.000", "E", "0", "08", "0.9"],
      0, false, 0⟩ }

/-- A ready state whose sentence already consumed 90 characters. -/
def c9State : GPSState :=
  { readyState with stream := some ⟨[""], 0, true, 90⟩ }

/-- A ready state with no active sentence. -/
def c9Inactive : GPSState :=
  { readyState with sentence_active := false }

def segsAfter (segs : List String) (c : Char) : List String :=
  if c = ',' then segs ++ [""]
  else segs.set (segs.length - 1) ((segs.getD (segs.length - 1) "").push c)

def MidSt (s : GPSState) (segs : List String) (x n : Nat) : GPSState :=
  { s with
    stream := some ⟨segs, x, true, n⟩
    active_segment := segs.length - 1
    sentence_active := true }

def StarSt (s : GPSState) (segs : List String) (x n : Nat) : GPSState :=
  { s with
    stream := some ⟨segs ++ [""], x, false, n⟩
    active_segment := segs.length
    sentence_active := true }

def bodySegs (segs : List String) : List Char → List String
  | [] => segs
  | c :: cs => bodySegs (segsAfter segs c) cs

/-- An 89-character body: one character over what still allows the checksum
pair to be consumed. -/
def c3Body : List Char :=
  List.replicate 89 'A'

/-- The final state of the witness run for C3: the unrecognized but
checksum-valid sentence `$AB*03` is accepted and consumed. -/
def c3WitFinal : GPSState :=
  { readyState with
    sentence_active := false
    active_segment := 1
    clean_sentences := 1
    stream := some ⟨[], 3, false, 5⟩ }

def DataRel (s1 u1 s2 u2 : GPSState) : Prop :=
  (u1.timestamp = u2.timestamp ∨ (u1.timestamp = s1.timestamp ∧ u2.timestamp = s2.timestamp)) ∧
  (u1.date = u2.date ∨ (u1.date = s1.date ∧ u2.date = s2.date)) ∧
  (u1._latitude = u2._latitude ∨ (u1._latitude = s1._latitude ∧ u2._latitude = s2._latitude)) ∧
  (u1._longitude = u2._longitude ∨
    (u1._longitude = s1._longitude ∧ u2._longitude = s2._longitude)) ∧
  (u1.speed = u2.speed ∨ (u1.speed = s1.speed ∧ u2.speed = s2.speed)) ∧
  (u1.course = u2.course ∨ (u1.course = s1.course ∧ u2.course = s2.course)) ∧
  (u1.altitude = u2.altitude ∨ (u1.altitude = s1.altitude ∧ u2.altitude = s2.altitude)) ∧
  (u1.geoid_height = u2.geoid_height ∨
    (u1.geoid_height = s1.geoid_height ∧ u2.geoid_height = s2.geoid_height)) ∧
  (u1.satellites_in_use = u2.satellites_in_use ∨
    (u1.satellites_in_use = s1.satellites_in_use ∧ u2.satellites_in_use = s2.satellites_in_use)) ∧
  (u1.hdop = u2.hdop ∨ (u1.hdop = s1.hdop ∧ u2.hdop = s2.hdop)) ∧
  (u1.valid = u2.valid ∨ (u1.valid = s1.valid ∧ u2.valid = s2.valid)) ∧
  (u1.fix_stat = u2.fix_stat ∨ (u1.fix_stat = s1.fix_stat ∧ u2.fix_stat = s2.fix_stat)) ∧
  (∃ d, u1.clean_sentences = s1.clean_sentences + d ∧
    u2.clean_sentences = s2.clean_sentences + d) ∧
  (∃ d, u1.crc_fails = s1.crc_fails + d ∧ u2.crc_fails = s2.crc_fails + d)

def c4St0 : StreamState := ⟨["GPABC", "1"], 7, true, 9⟩

def c4S2 : GPSState := MidSt readyState ["GPABC", "1"] 7 9

def c4Cs : List Char := "GPRMC,A".data

/-- C2: the claim says no exception escapes `update` for any in-range
character; in fact the very first statement of the in-range branch,
`self.char_count += 1`, raises `AttributeError` on a freshly constructed
object (`__init__` never assigns `char_count`, `gps_segments`, `crc_xor`
or `process_crc`), even for the start marker itself; and `gprmc` catches
only `ValueError`, so a checksum-valid RMC sentence that is too short
(here `$GPRMC,120000*64`) raises `IndexError` at `gps_segments[9]`. -/
theorem claim2_update_raises :
    MicropyGPS.update (MicropyGPS.pyInit 0 "ddm") '$' = .error .attributeError ∧
    MicropyGPS.update (MicropyGPS.pyInit 0 "ddm") 'G' = .error .attributeError ∧
    MicropyGPS.feed readyState "$GPRMC,120000*64".data = .error .indexError := by
  refine ⟨by decide, by decide, by decide⟩

/-- C1: the claim (and the method's own docstring) says `update` returns a
sentence-type indicator when a complete valid recognized sentence was just
decoded; in fact every `return` statement in `update` is `return None`.
Feeding the spec's example RMC sentence from an initialized state, the
sentence is decoded (`valid` becomes true, `clean_sentences` becomes 1,
latitude is written), yet every one of the 68 `update` calls, including
the final one that completes and dispatches the sentence, returns `None`. -/
theorem claim1_update_always_returns_none :
    (MicropyGPS.feedOuts readyState exampleRMC.data).map
        (fun p => (p.2.all (fun o => o.isNone), p.2.length, p.1.valid, p.1.clean_sentences,
          p.1._latitude)) =
      .ok (true, 68, true, 1, ⟨48, 3519 / 500, "N"⟩) := by
  with_unfolding_all rfl

/-- C7 counterexample: the claim says the decimal-degrees accessor negates
the value when the hemisphere is S (latitude) or W (longitude); in fact the
source computes `degrees + minutes / 60` with no negation and returns the
positive value alongside the hemisphere letter. -/
theorem claim7_counterexample :
    MicropyGPS.latitude c7State = .dd (481173 / 10000) "S" ∧
    MicropyGPS.longitude c7State = .dd (691 / 60) "W" ∧
    ¬ ((481173 : ℚ) / 10000 = -((48 : ℚ) + (7038 / 1000) / 60)) ∧
    ¬ ((347 : ℚ) / 30 = -((11 : ℚ) + (31 : ℚ) / 60)) ∧
    (0 : ℚ) < 481173 / 10000 := by
  refine ⟨by with_unfolding_all rfl, by with_unfolding_all rfl, by with_unfolding_all decide,
    by with_unfolding_all decide, by with_unfolding_all decide⟩

/-- C7 amended: in `dd` format the accessors return the unsigned value
`degrees + minutes / 60` paired with the hemisphere letter; no sign is
applied for S or W. -/
theorem claim7_amended_unsigned_decimal_degrees (s : GPSState) (h : s.coord_format = "dd") :
    MicropyGPS.latitude s =
      .dd ((s._latitude.degrees : ℚ) + s._latitude.minutes / 60) s._latitude.hemi ∧
    MicropyGPS.longitude s =
      .dd ((s._longitude.degrees : ℚ) + s._longitude.minutes / 60) s._longitude.hemi := by
  constructor <;> simp [MicropyGPS.latitude, MicropyGPS.longitude, h]

/-- Witness for C7 amended at the concrete counterexample state. -/
theorem claim7_amended_witness :
    c7State.coord_format = "dd" ∧
    (MicropyGPS.latitude c7State =
        .dd ((c7State._latitude.degrees : ℚ) + c7State._latitude.minutes / 60)
          c7State._latitude.hemi ∧
      MicropyGPS.longitude c7State =
        .dd ((c7State._longitude.degrees : ℚ) + c7State._longitude.minutes / 60)
          c7State._longitude.hemi) :=
  ⟨by decide, claim7_amended_unsigned_decimal_degrees c7State (by decide)⟩

/-- A character outside the accepted range is discarded with no state
change at all (the range test is the first thing `update` does, before any
attribute access). -/
lemma update_not_in_range (s : GPSState) (c : Char) (h : inRange c = false) :
    MicropyGPS.update s c = .ok (s, none) := by
  have h' : ¬ (10 ≤ c.toNat ∧ c.toNat ≤ 126) := by
    intro hc
    simp [inRange, hc.1, hc.2] at h
  simp [MicropyGPS.update, h']

/-- Feeding a stream is the same as feeding the stream with all
out-of-range characters removed. -/
lemma feed_filter_inRange (s : GPSState) (l : List Char) :
    MicropyGPS.feed s l = MicropyGPS.feed s (l.filter inRange) := by
  induction l generalizing s with
  | nil => rfl
  | cons c rest ih =>
    by_cases hc : inRange c = true
    · have hf : (c :: rest).filter inRange = c :: rest.filter inRange := by
        simp [List.filter, hc]
      rw [hf]
      simp only [MicropyGPS.feed]
      cases h : MicropyGPS.update s c with
      | error e => simp [h]
      | ok p => simp [h, ih p.1]
    · have hc' : inRange c = false := by simpa using hc
      have hf : (c :: rest).filter inRange = rest.filter inRange := by
        simp [List.filter, hc']
      rw [hf]
      simp only [MicropyGPS.feed]
      rw [update_not_in_range s c hc']
      exact ih s

/-- C10: a character with ordinal below 10 or above 126 leaves the whole
parser state unchanged and `update` returns `None`; consequently feeding
any stream gives exactly the same run (final state included) as feeding the
stream with all such characters removed. -/
theorem claim10_noise_chars_are_no_ops :
    (∀ s c, inRange c = false → MicropyGPS.update s c = .ok (s, none)) ∧
    (∀ s l, MicropyGPS.feed s l = MicropyGPS.feed s (l.filter inRange)) :=
  ⟨update_not_in_range, feed_filter_inRange⟩

/-- Witness for C10 at a concrete noise character (BEL, ordinal 7)
interleaved into the example sentence. -/
theorem claim10_witness :
    (inRange (Char.ofNat 7) = false ∧
      MicropyGPS.update readyState (Char.ofNat 7) = .ok (readyState, none)) ∧
    MicropyGPS.feed readyState (Char.ofNat 7 :: exampleRMC.data) =
      MicropyGPS.feed readyState ((Char.ofNat 7 :: exampleRMC.data).filter inRange) :=
  ⟨⟨by decide, claim10_noise_chars_are_no_ops.1 readyState (Char.ofNat 7) (by decide)⟩,
    claim10_noise_chars_are_no_ops.2 readyState (Char.ofNat 7 :: exampleRMC.data)⟩

/-- When `gprmc` completes with `return False` (any parse failure), none of
the position, motion or validity fields is written; only the timestamp and
date may already have been overwritten. -/
lemma gprmc_false_frame (s s' : GPSState) (h : MicropyGPS.gprmc s = .ok (s', false)) :
    s'._latitude = s._latitude ∧ s'._longitude = s._longitude ∧ s'.speed = s.speed ∧
    s'.course = s.course ∧ s'.valid = s.valid ∧ s'.fix_stat = s.fix_stat := by
  unfold MicropyGPS.gprmc at h
  iterate 22 (all_goals (try (first | (split at h) | (simp only [] at h; split at h))))
  all_goals (try simp_all)
  all_goals (subst h; simp)

/-- C5 counterexample: the claim says a checksum-valid RMC sentence with an
invalid hemisphere field mutates no fix-data field, timestamp included; in
fact the source parses and assigns timestamp (and date) before the position
block, so the hemisphere-`"X"` sentence below aborts the decode yet
overwrites the prior timestamp (1, 2, 3) with (12, 35, 19). -/
theorem claim5_counterexample :
    (MicropyGPS.feed c5Start
          "$GPRMC,123519,A,4807.038,X,01131.000,E,022.4,084.4,230394,003.1,W*7C".data).map
        (fun s => (s.timestamp, s.valid, s.clean_sentences, s._latitude)) =
      .ok (((12, 35, 19) : Int × Int × ℚ), false, 1, c5Start._latitude) ∧
    c5Start.timestamp = (1, 2, 3) ∧
    ¬ (((1, 2, 3) : Int × Int × ℚ) = ((12, 35, 19) : Int × Int × ℚ)) := by
  refine ⟨by with_unfolding_all rfl, by decide, by with_unfolding_all decide⟩

/-- C5 amended: when an RMC decode aborts with a failure (bad number or bad
hemisphere), the position, motion and validity fields (latitude, longitude,
speed, course, fixValid, fixStatus) are untouched and keep the prior
sentence's data; the timestamp and date fields, however, may already have
been overwritten, because the source parses and assigns them before the
position block. -/
theorem claim5_amended_abort_leaves_position_data (s s' : GPSState)
    (h : MicropyGPS.gprmc s = .ok (s', false)) :
    s'._latitude = s._latitude ∧ s'._longitude = s._longitude ∧ s'.speed = s.speed ∧
    s'.course = s.course ∧ s'.valid = s.valid ∧ s'.fix_stat = s.fix_stat :=
  gprmc_false_frame s s' h

/-- Witness for C5 amended at the hemisphere-`"X"` segments. -/
theorem claim5_amended_witness :
    MicropyGPS.gprmc c5WitState = .ok (c5WitOut, false) ∧
    (c5WitOut._latitude = c5WitState._latitude ∧ c5WitOut._longitude = c5WitState._longitude ∧
      c5WitOut.speed = c5WitState.speed ∧ c5WitOut.course = c5WitState.course ∧
      c5WitOut.valid = c5WitState.valid ∧ c5WitOut.fix_stat = c5WitState.fix_stat) :=
  ⟨by with_unfolding_all rfl,
    claim5_amended_abort_leaves_position_data c5WitState c5WitOut (by with_unfolding_all rfl)⟩

/-- `gpgga` never writes the `valid` flag (it belongs to the RMC decoder). -/
lemma gpgga_preserves_valid (s : GPSState) (p : GPSState × Bool)
    (h : MicropyGPS.gpgga s = .ok p) : p.1.valid = s.valid := by
  unfold MicropyGPS.gpgga at h
  iterate 22 (all_goals (try (first | (split at h) | (simp only [] at h; split at h))))
  all_goals (try simp_all)
  all_goals (subst h; simp)

/-- A completed `gprmc` decode writes both `valid` and `fix_stat`: on the
`'A'` path `valid := True, fix_stat := True`, on the invalid path
`valid := False, fix_stat := False`. -/
lemma gprmc_true_validity (s s' : GPSState) (h : MicropyGPS.gprmc s = .ok (s', true)) :
    (s'.valid = true ∧ s'.fix_stat = 1) ∨ (s'.valid = false ∧ s'.fix_stat = 0) := by
  unfold MicropyGPS.gprmc at h
  iterate 22 (all_goals (try (first | (split at h) | (simp only [] at h; split at h))))
  all_goals (try simp_all)
  all_goals (subst h; simp)

/-- C6 counterexample: the claim says an RMC-class decode leaves
`fix_stat` unchanged; in fact `gprmc` assigns `self.fix_stat = True` on the
valid path (and `False` on the invalid path), so decoding the example RMC
sentence overwrites a prior GGA fix-status code 5 with `True` (= 1). -/
theorem claim6_counterexample :
    (MicropyGPS.feed c6Start exampleRMC.data).map (fun s => (s.fix_stat, s.valid)) =
      .ok (1, true) ∧
    c6Start.fix_stat = 5 ∧ ¬ ((5 : Int) = 1) := by
  refine ⟨by with_unfolding_all rfl, by decide, by decide⟩

/-- C6 amended: `valid` (fixValid) is indeed written only by RMC-class
decodes and a GGA-class decode leaves it unchanged; but `fix_stat`
(fixStatus) is not written only by GGA-class decodes: a completed RMC-class
decode overwrites it with the boolean validity flag (`True` on the `'A'`
path, `False` otherwise). -/
theorem claim6_amended_validity_signals :
    (∀ s p, MicropyGPS.gpgga s = .ok p → p.1.valid = s.valid) ∧
    (∀ s s', MicropyGPS.gprmc s = .ok (s', true) →
      (s'.valid = true ∧ s'.fix_stat = 1) ∨ (s'.valid = false ∧ s'.fix_stat = 0)) :=
  ⟨gpgga_preserves_valid, gprmc_true_validity⟩

/-- Witness for C6 amended: a concrete no-fix GGA decode that preserves
`valid`, and a concrete valid RMC decode (to which the second conjunct
applies). -/
theorem claim6_amended_witness :
    (MicropyGPS.gpgga c6GgaState = .ok (c6GgaOut, true) ∧
      c6GgaOut.valid = c6GgaState.valid) ∧
    (MicropyGPS.gprmc c6RmcState = .ok (c6RmcOut, true) ∧
      ((c6RmcOut.valid = true ∧ c6RmcOut.fix_stat = 1) ∨
        (c6RmcOut.valid = false ∧ c6RmcOut.fix_stat = 0))) :=
  ⟨⟨by with_unfolding_all rfl,
      claim6_amended_validity_signals.1 c6GgaState (c6GgaOut, true) (by with_unfolding_all rfl)⟩,
    ⟨by with_unfolding_all rfl,
      claim6_amended_validity_signals.2 c6RmcState c6RmcOut (by with_unfolding_all rfl)⟩⟩

/-- C8: for a GGA sentence whose time, satellites-in-use and fix-status
fields parse and whose fix-status is 0, the decode still returns success
and writes exactly timestamp, satellites-in-use, HDOP and fix-status (the
unconditional tail of `gpgga`), while latitude, longitude, altitude and
geoid height keep their prior values (the record update below touches no
other field). -/
theorem claim8_gga_nofix_still_writes_status (s : GPSState) (st : StreamState)
    (hs : s.stream = some st)
    (u : String) (hu : listGet st.gps_segments 1 = .ok u)
    (ts : Int × Int × ℚ) (hts : pyTimeField s.local_offset u = some ts)
    (u7 : String) (h7 : listGet st.gps_segments 7 = .ok u7)
    (sats : Int) (hsats : pyInt u7 = some sats)
    (u6 : String) (h6 : listGet st.gps_segments 6 = .ok u6)
    (hfix : pyInt u6 = some 0) :
    MicropyGPS.gpgga s = .ok ({ s with
      timestamp := ts
      satellites_in_use := sats
      hdop := ggaHdop st.gps_segments
      fix_stat := 0 }, true) := by
  unfold MicropyGPS.gpgga
  simp only [hs, hu, hts, h7, hsats, h6, hfix]
  norm_num

/-- Witness for C8 at the concrete no-fix GGA segments: the prior latitude,
longitude, altitude and geoid height survive. -/
theorem claim8_witness :
    MicropyGPS.gpgga c8State = .ok ({ c8State with
      timestamp := ((12, 35, 19) : Int × Int × ℚ)
      satellites_in_use := 8
      hdop := ggaHdop (["GPGGA", "123519", "4807.038", "N", "01131.000", "E", "0", "08",
        "0.9"] : List String)
      fix_stat := 0 }, true) :=
  claim8_gga_nofix_still_writes_status c8State
    ⟨["GPGGA", "123519", "4807.038", "N", "01131.000", "E", "0", "08", "0.9"], 0, false, 0⟩
    (by decide) "123519" (by decide) (12, 35, 19) (by with_unfolding_all rfl)
    "08" (by decide) 8 (by decide) "0" (by decide) (by decide)

/-- A character ignored while no sentence is active still increments
`char_count` (the increment precedes every other test in `update`) but
changes nothing else and returns `None`. -/
lemma update_inactive (s : GPSState) (st : StreamState) (c : Char)
    (hs : s.stream = some st) (hact : s.sentence_active = false)
    (hr : inRange c = true) (hd : c ≠ '$') :
    MicropyGPS.update s c =
      .ok ({ s with stream := some { st with char_count := st.char_count + 1 } }, none) := by
  have hr' : 10 ≤ c.toNat ∧ c.toNat ≤ 126 := by
    simpa [inRange, Bool.and_eq_true, decide_eq_true_eq] using hr
  unfold MicropyGPS.update MicropyGPS.sentenceEnd
  simp [hs, hact, hd, hr']

/-- A field or data character that pushes `char_count` past the ceiling
while the sentence is active and the CRC is still being accumulated clears
`sentence_active`; no decoder runs (the counters are untouched) and no
fix-data field changes. -/
lemma update_ceiling_abort (s : GPSState) (st : StreamState) (c : Char)
    (hs : s.stream = some st) (hact : s.sentence_active = true)
    (hcrc : st.process_crc = true)
    (hidx : s.active_segment < st.gps_segments.length)
    (hr : inRange c = true) (hd : c ≠ '$') (hst : c ≠ '*')
    (hlim : SENTENCE_LIMIT ≤ st.char_count) :
    ∃ u, MicropyGPS.update s c = .ok (u, none) ∧ u.sentence_active = false ∧
      u.clean_sentences = s.clean_sentences ∧ u.crc_fails = s.crc_fails ∧
      u.timestamp = s.timestamp ∧ u.date = s.date ∧ u._latitude = s._latitude ∧
      u._longitude = s._longitude ∧ u.speed = s.speed ∧ u.course = s.course ∧
      u.altitude = s.altitude ∧ u.geoid_height = s.geoid_height ∧
      u.satellites_in_use = s.satellites_in_use ∧ u.hdop = s.hdop ∧
      u.valid = s.valid ∧ u.fix_stat = s.fix_stat := by
  have hr' : 10 ≤ c.toNat ∧ c.toNat ≤ 126 := by
    simpa [inRange, Bool.and_eq_true, decide_eq_true_eq] using hr
  have hgt : st.char_count + 1 > SENTENCE_LIMIT := by omega
  by_cases hcomma : c = ','
  · refine ⟨{ s with
      active_segment := s.active_segment + 1
      sentence_active := false
      stream := some { st with
        gps_segments := st.gps_segments ++ [""]
        crc_xor := st.crc_xor ^^^ c.toNat
        char_count := st.char_count + 1 } }, ?_, by and_intros <;> rfl⟩
    unfold MicropyGPS.update MicropyGPS.sentenceEnd
    simp [hs, hact, hd, hst, hr', hcomma, hcrc, hgt]
  · refine ⟨{ s with
      sentence_active := false
      stream := some { st with
        gps_segments := st.gps_segments.set s.active_segment
          ((st.gps_segments.get ⟨s.active_segment, hidx⟩).push c)
        crc_xor := st.crc_xor ^^^ c.toNat
        char_count := st.char_count + 1 } }, ?_, by and_intros <;> rfl⟩
    unfold MicropyGPS.update MicropyGPS.sentenceEnd
    simp [hs, hact, hd, hst, hr', hcomma, hcrc, hgt, listGet, hidx]

/-- C9 counterexample: the claim says the parser clears `sentenceActive`
whenever the character count exceeds the 90-character ceiling while the
sentence is active; but the `'*'` branch of `update` returns before the
ceiling test, so a `'$'` followed by 91 `'*'` characters leaves the
sentence active with `char_count` = 91 > 90 and `sentenceActive` still
true. -/
theorem claim9_counterexample :
    (MicropyGPS.feed readyState ('$' :: List.replicate 91 '*')).map
        (fun s => (s.sentence_active, s.stream.map (fun stx => stx.char_count))) =
      .ok (true, some 91) ∧ 91 > SENTENCE_LIMIT := by
  refine ⟨by decide, by decide⟩

/-- C9 amended: when a field (`','`) or ordinary data character (but not a
`'*'`, whose branch returns before the ceiling test) pushes the character
count past the ceiling while the sentence is still active (CRC still being
accumulated, so no completion can occur on that call), the parser clears
`sentenceActive` without invoking any decoder — counters and all fix-data
fields are untouched; and once `sentenceActive` is false every further
in-range character other than `'$'` is ignored, changing nothing but the
`char_count` diagnostic. -/
theorem claim9_amended_ceiling_abort :
    (∀ s st c, s.stream = some st → s.sentence_active = true → st.process_crc = true →
      s.active_segment < st.gps_segments.length → inRange c = true → c ≠ '$' → c ≠ '*' →
      SENTENCE_LIMIT ≤ st.char_count →
      ∃ u, MicropyGPS.update s c = .ok (u, none) ∧ u.sentence_active = false ∧
        u.clean_sentences = s.clean_sentences ∧ u.crc_fails = s.crc_fails ∧
        u.timestamp = s.timestamp ∧ u.date = s.date ∧ u._latitude = s._latitude ∧
        u._longitude = s._longitude ∧ u.speed = s.speed ∧ u.course = s.course ∧
        u.altitude = s.altitude ∧ u.geoid_height = s.geoid_height ∧
        u.satellites_in_use = s.satellites_in_use ∧ u.hdop = s.hdop ∧
        u.valid = s.valid ∧ u.fix_stat = s.fix_stat) ∧
    (∀ s st c, s.stream = some st → s.sentence_active = false → inRange c = true → c ≠ '$' →
      MicropyGPS.update s c =
        .ok ({ s with stream := some { st with char_count := st.char_count + 1 } }, none)) :=
  ⟨fun s st c hs hact hcrc hidx hr hd hst hlim =>
      update_ceiling_abort s st c hs hact hcrc hidx hr hd hst hlim,
    fun s st c hs hact hr hd => update_inactive s st c hs hact hr hd⟩

/-- Witness for C9 amended: the 91st character of an unterminated sentence
aborts it, and characters after the abort are ignored. -/
theorem claim9_amended_witness :
    (∃ u, MicropyGPS.update c9State 'A' = .ok (u, none) ∧ u.sentence_active = false ∧
      u.clean_sentences = c9State.clean_sentences ∧ u.crc_fails = c9State.crc_fails ∧
      u.timestamp = c9State.timestamp ∧ u.date = c9State.date ∧
      u._latitude = c9State._latitude ∧ u._longitude = c9State._longitude ∧
      u.speed = c9State.speed ∧ u.course = c9State.course ∧
      u.altitude = c9State.altitude ∧ u.geoid_height = c9State.geoid_height ∧
      u.satellites_in_use = c9State.satellites_in_use ∧ u.hdop = c9State.hdop ∧
      u.valid = c9State.valid ∧ u.fix_stat = c9State.fix_stat) ∧
    MicropyGPS.update c9Inactive 'A' =
      .ok ({ c9Inactive with stream := some ⟨[""], 0, true, 1⟩ }, none) :=
  ⟨claim9_amended_ceiling_abort.1 c9State ⟨[""], 0, true, 90⟩ 'A' (by decide) (by decide)
      (by decide) (by decide) (by decide) (by decide) (by decide) (by decide),
    claim9_amended_ceiling_abort.2 c9Inactive ⟨[""], 0, true, 0⟩ 'A' (by decide) (by decide)
      (by decide) (by decide)⟩

lemma update_dollar (s : GPSState) (st : StreamState) (hs : s.stream = some st) :
    MicropyGPS.update s '$' = .ok (MidSt s [""] 0 0, none) := by
  have hr : 10 ≤ '$'.toNat ∧ '$'.toNat ≤ 126 := by decide
  unfold MicropyGPS.update MicropyGPS.new_sentence
  simp [hs, hr, MidSt]

lemma update_body_char (s0 : GPSState) (segs : List String) (x n : Nat) (c : Char)
    (hne : segs ≠ []) (hr : inRange c = true) (hd : c ≠ '$') (hst : c ≠ '*')
    (hn : n + 1 ≤ 90) :
    MicropyGPS.update (MidSt s0 segs x n) c =
      .ok (MidSt s0 (segsAfter segs c) (x ^^^ c.toNat) (n + 1), none) := by
  have hr' : 10 ≤ c.toNat ∧ c.toNat ≤ 126 := by
    simpa [inRange, Bool.and_eq_true, decide_eq_true_eq] using hr
  have hpos : 0 < segs.length := List.length_pos.mpr hne
  have hngt : ¬ (n + 1 > SENTENCE_LIMIT) := by simp [SENTENCE_LIMIT]; omega
  by_cases hcomma : c = ','
  · unfold MicropyGPS.update MicropyGPS.sentenceEnd
    simp [hcomma, hr', MidSt, segsAfter, StarSt, hngt]
    omega
  · have hidx : segs.length - 1 < segs.length := by omega
    unfold MicropyGPS.update MicropyGPS.sentenceEnd
    simp [hcomma, hd, hst, hr', MidSt, segsAfter, hngt, listGet, hidx]

lemma update_star_mid (s0 : GPSState) (segs : List String) (x n : Nat)
    (hne : segs ≠ []) :
    MicropyGPS.update (MidSt s0 segs x n) '*' = .ok (StarSt s0 segs x (n + 1), none) := by
  have hr : 10 ≤ '*'.toNat ∧ '*'.toNat ≤ 126 := by decide
  have hpos : 0 < segs.length := List.length_pos.mpr hne
  unfold MicropyGPS.update MicropyGPS.sentenceEnd
  simp [hr, MidSt, StarSt]
  omega

lemma feed_cons (s : GPSState) (c : Char) (l : List Char) :
    MicropyGPS.feed s (c :: l) =
      match MicropyGPS.update s c with
      | .error e => .error e
      | .ok (s2, _) => MicropyGPS.feed s2 l := rfl

lemma feed_append (s : GPSState) (l1 l2 : List Char) :
    MicropyGPS.feed s (l1 ++ l2) =
      match MicropyGPS.feed s l1 with
      | .error e => .error e
      | .ok s2 => MicropyGPS.feed s2 l2 := by
  induction l1 generalizing s with
  | nil => simp [MicropyGPS.feed]
  | cons c rest ih =>
    simp only [List.cons_append, feed_cons]
    cases MicropyGPS.update s c with
    | error e => rfl
    | ok p => exact ih p.1

lemma feed_cons_ok (s : GPSState) (c : Char) (l : List Char) (s2 : GPSState)
    (o : Option String) (h : MicropyGPS.update s c = .ok (s2, o)) :
    MicropyGPS.feed s (c :: l) = MicropyGPS.feed s2 l := by
  rw [feed_cons, h]

lemma feed_append_ok (s s2 : GPSState) (l1 l2 : List Char)
    (h : MicropyGPS.feed s l1 = .ok s2) :
    MicropyGPS.feed s (l1 ++ l2) = MicropyGPS.feed s2 l2 := by
  rw [feed_append, h]

lemma segsAfter_ne (segs : List String) (c : Char) (hne : segs ≠ []) :
    segsAfter segs c ≠ [] := by
  unfold segsAfter
  split
  · simp
  · intro hcon
    apply hne
    have := congrArg List.length hcon
    simp at this
    exact this

lemma bodySegs_ne (body : List Char) : ∀ segs, segs ≠ [] → bodySegs segs body ≠ [] := by
  induction body with
  | nil => intro segs h; exact h
  | cons c cs ih => intro segs h; exact ih _ (segsAfter_ne segs c h)

lemma feed_body (body : List Char)
    (hbody : ∀ c ∈ body, inRange c = true ∧ c ≠ '$' ∧ c ≠ '*') :
    ∀ (s0 : GPSState) (segs : List String) (x n : Nat), segs ≠ [] →
      n + body.length ≤ 90 →
      MicropyGPS.feed (MidSt s0 segs x n) body =
        .ok (MidSt s0 (bodySegs segs body) (body.foldl (fun a c => a ^^^ c.toNat) x)
          (n + body.length)) := by
  induction body with
  | nil => intro s0 segs x n hne hlim; simp [MicropyGPS.feed, bodySegs]
  | cons c cs ih =>
    intro s0 segs x n hne hlim
    obtain ⟨hr, hd, hst⟩ := hbody c (by simp)
    rw [feed_cons_ok _ _ _ _ _
      (update_body_char s0 segs x n c hne hr hd hst (by simp at hlim; omega))]
    have := ih (fun d hd => hbody d (by simp [hd])) s0 (segsAfter segs c) (x ^^^ c.toNat)
      (n + 1) (segsAfter_ne segs c hne) (by simp at hlim ⊢; omega)
    rw [this]
    simp only [bodySegs, List.foldl_cons, List.length_cons]
    have harith : n + 1 + cs.length = n + (cs.length + 1) := by omega
    rw [harith]

lemma set_concat_length (l : List String) (a b : String) :
    (l ++ [a]).set l.length b = l ++ [b] := by
  induction l with
  | nil => rfl
  | cons y ys ih => simp [List.set, ih]

lemma gprmc_parse_frame (s : GPSState) (p : GPSState × Bool)
    (h : MicropyGPS.gprmc s = .ok p) :
    p.1.clean_sentences = s.clean_sentences ∧ p.1.crc_fails = s.crc_fails ∧
    p.1.stream = s.stream ∧ p.1.sentence_active = s.sentence_active ∧
    p.1.active_segment = s.active_segment ∧ p.1.local_offset = s.local_offset ∧
    p.1.log_en = s.log_en ∧ p.1.coord_format = s.coord_format := by
  unfold MicropyGPS.gprmc at h
  iterate 22 (all_goals (try (first | (split at h) | (simp only [] at h; split at h))))
  all_goals (try simp_all)
  all_goals (subst h; simp_all)

lemma gpgga_parse_frame (s : GPSState) (p : GPSState × Bool)
    (h : MicropyGPS.gpgga s = .ok p) :
    p.1.clean_sentences = s.clean_sentences ∧ p.1.crc_fails = s.crc_fails ∧
    p.1.stream = s.stream ∧ p.1.sentence_active = s.sentence_active ∧
    p.1.active_segment = s.active_segment ∧ p.1.local_offset = s.local_offset ∧
    p.1.log_en = s.log_en ∧ p.1.coord_format = s.coord_format := by
  unfold MicropyGPS.gpgga at h
  iterate 22 (all_goals (try (first | (split at h) | (simp only [] at h; split at h))))
  all_goals (try simp_all)
  all_goals (subst h; simp_all)

lemma update_cs1 (s0 : GPSState) (segs : List String) (x m : Nat) (c1 : Char)
    (hr : inRange c1 = true) (hd : c1 ≠ '$') (hst : c1 ≠ '*') (hc : c1 ≠ ',')
    (hm : m + 1 ≤ 90) :
    MicropyGPS.update (StarSt s0 segs x m) c1 =
      .ok ({ s0 with
        stream := some ⟨segs ++ [("" : String).push c1], x, false, m + 1⟩
        active_segment := segs.length
        sentence_active := true }, none) := by
  have hr' : 10 ≤ c1.toNat ∧ c1.toNat ≤ 126 := by
    simpa [inRange, Bool.and_eq_true, decide_eq_true_eq] using hr
  have hidx : segs.length < (segs ++ [""]).length := by simp
  have hngt : ¬ (m + 1 > SENTENCE_LIMIT) := by simp [SENTENCE_LIMIT]; omega
  unfold MicropyGPS.update MicropyGPS.sentenceEnd
  simp [hd, hst, hc, hr', StarSt, hngt, listGet, hidx, set_concat_length]

lemma update_cs2_reject (s0 : GPSState) (segs : List String) (x k : Nat) (t : String)
    (c2 : Char) (hr : inRange c2 = true) (hd : c2 ≠ '$') (hst : c2 ≠ '*') (hc : c2 ≠ ',')
    (ht : t.length = 1)
    (hhex : pyIntHex2 (t.push c2) ≠ some ((x : Nat) : Int)) :
    ∃ u, MicropyGPS.update ({ s0 with
        stream := some ⟨segs ++ [t], x, false, k⟩
        active_segment := segs.length
        sentence_active := true }) c2 = .ok (u, none) ∧
      u.clean_sentences = s0.clean_sentences := by
  have hr' : 10 ≤ c2.toNat ∧ c2.toNat ≤ 126 := by
    simpa [inRange, Bool.and_eq_true, decide_eq_true_eq] using hr
  have hidx : segs.length < (segs ++ [t]).length := by simp
  have hlen2 : (t.push c2).length = 2 := by simp [ht]
  cases hv : pyIntHex2 (t.push c2) with
  | none =>
    refine ⟨(if k + 1 > SENTENCE_LIMIT then
        ({ s0 with
          stream := some ⟨segs ++ [t.push c2], x, false, k + 1⟩
          active_segment := segs.length
          sentence_active := false })
      else
        ({ s0 with
          stream := some ⟨segs ++ [t.push c2], x, false, k + 1⟩
          active_segment := segs.length
          sentence_active := true })), ?_, by split <;> simp⟩
    unfold MicropyGPS.update MicropyGPS.sentenceEnd
    simp [hd, hst, hc, hr', listGet, hidx, set_concat_length, hlen2, hv]
  | some v =>
    have hvne : ¬ ((x : Int) = v) := by
      intro hcon
      exact hhex (by rw [hv, hcon])
    refine ⟨(if k + 1 > SENTENCE_LIMIT then
        ({ s0 with
          crc_fails := s0.crc_fails + 1
          stream := some ⟨segs ++ [t.push c2], x, false, k + 1⟩
          active_segment := segs.length
          sentence_active := false })
      else
        ({ s0 with
          crc_fails := s0.crc_fails + 1
          stream := some ⟨segs ++ [t.push c2], x, false, k + 1⟩
          active_segment := segs.length
          sentence_active := true })), ?_, by split <;> simp⟩
    unfold MicropyGPS.update MicropyGPS.sentenceEnd
    simp [hd, hst, hc, hr', listGet, hidx, set_concat_length, hlen2, hv, hvne]

lemma except_map_fst_ok {e a b : Type} (f : a → b) (r : Except e a) (v : b)
    (h : Except.map f r = .ok v) : ∃ p, r = .ok p ∧ f p = v := by
  cases r with
  | error x => simp [Except.map] at h
  | ok p => exact ⟨p, rfl, by simpa [Except.map] using h⟩

lemma final_match_clean (s5 : GPSState) (u : GPSState) (o : Option String)
    (h : (match s5.stream with
        | none => (Except.error PyExc.attributeError : Except PyExc (GPSState × Option String))
        | some st5 =>
          .ok ((if st5.char_count > SENTENCE_LIMIT then { s5 with sentence_active := false }
            else s5), none)) = .ok (u, o)) :
    o = none ∧ u.clean_sentences = s5.clean_sentences := by
  split at h
  · simp_all
  · injection h with h
    injection h with hu ho
    exact ⟨ho.symm, by rw [← hu]; split <;> simp⟩

lemma validDispatch_clean (s3 : GPSState) (segs : List String) (s4 : GPSState)
    (h : MicropyGPS.validDispatch s3 segs = .ok s4) :
    s4.clean_sentences = s3.clean_sentences := by
  unfold MicropyGPS.validDispatch at h
  split at h
  · simp_all
  · split at h
    · obtain ⟨p, hg, hfst⟩ := except_map_fst_ok Prod.fst _ s4 h
      rw [← hfst]
      exact (gprmc_parse_frame _ p hg).1
    · split at h
      · obtain ⟨p, hg, hfst⟩ := except_map_fst_ok Prod.fst _ s4 h
        rw [← hfst]
        exact (gpgga_parse_frame _ p hg).1
      · injection h with h
        rw [← h]

lemma update_cs2_accept (s0 : GPSState) (segs : List String) (x k : Nat) (t : String)
    (c2 : Char) (hr : inRange c2 = true) (hd : c2 ≠ '$') (hst : c2 ≠ '*') (hc : c2 ≠ ',')
    (ht : t.length = 1)
    (hhex : pyIntHex2 (t.push c2) = some ((x : Nat) : Int))
    (u : GPSState) (o : Option String)
    (h : MicropyGPS.update ({ s0 with
        stream := some ⟨segs ++ [t], x, false, k⟩
        active_segment := segs.length
        sentence_active := true }) c2 = .ok (u, o)) :
    o = none ∧ u.clean_sentences = s0.clean_sentences + 1 := by
  have hr' : 10 ≤ c2.toNat ∧ c2.toNat ≤ 126 := by
    simpa [inRange, Bool.and_eq_true, decide_eq_true_eq] using hr
  have hidx : segs.length < (segs ++ [t]).length := by simp
  have hseg : listGet (segs ++ [t]) segs.length = .ok t := by
    simp [listGet]
  have hlen2 : (t.push c2).length = 2 := by simp [ht]
  unfold MicropyGPS.update MicropyGPS.sentenceEnd at h
  simp [hd, hst, hc, hr', hseg, set_concat_length, hlen2, hhex] at h
  split at h
  · simp_all
  next s5 hmid =>
    split at hmid
    · simp_all
    next s4 hdisp =>
      injection hmid with hmid
      have hclean : s4.clean_sentences = s0.clean_sentences + 1 := by
        simpa using validDispatch_clean _ _ s4 hdisp
      subst hmid
      obtain ⟨ho, hu⟩ := final_match_clean _ u o h
      refine ⟨ho, ?_⟩
      rw [hu]
      simpa using hclean

/-- C3 amended: for a sentence whose body fits under the length ceiling
(at most 88 characters between `'$'` and `'*'`, so that both checksum
characters are consumed before the ceiling aborts the sentence) and whose
two checksum characters are ordinary data characters, the checksum
accumulator after the delimiter equals the XOR of exactly the body
characters, and the sentence is accepted (observable as the
`clean_sentences` increment performed at acceptance) iff the two checksum
characters parse as a base-16 value equal to the accumulator.  For longer
bodies the claim fails, see the counterexample. -/
theorem claim3_amended_checksum (s : GPSState) (st : StreamState) (hs : s.stream = some st)
    (body : List Char)
    (hbody : ∀ c ∈ body, inRange c = true ∧ c ≠ '$' ∧ c ≠ '*')
    (hlen : body.length ≤ 88)
    (c1 c2 : Char)
    (h1r : inRange c1 = true) (h1d : c1 ≠ '$') (h1s : c1 ≠ '*') (h1c : c1 ≠ ',')
    (h2r : inRange c2 = true) (h2d : c2 ≠ '$') (h2s : c2 ≠ '*') (h2c : c2 ≠ ',')
    (sF : GPSState)
    (hrun : MicropyGPS.feed s ('$' :: body ++ '*' :: [c1, c2]) = .ok sF) :
    (∃ sMid stMid, MicropyGPS.feed s ('$' :: body ++ ['*']) = .ok sMid ∧
      sMid.stream = some stMid ∧ stMid.crc_xor = xorCodes body ∧ stMid.process_crc = false) ∧
    (sF.clean_sentences = s.clean_sentences + 1 ↔
      pyIntHex2 (String.mk [c1, c2]) = some ((xorCodes body : Nat) : Int)) := by
  have hne : ([""] : List String) ≠ [] := by simp
  have hB := bodySegs_ne body [""] hne
  -- run up to and including the body
  have hbodyrun : MicropyGPS.feed s ('$' :: body) =
      .ok (MidSt s (bodySegs [""] body) (body.foldl (fun a c => a ^^^ c.toNat) 0)
        (0 + body.length)) := by
    rw [feed_cons_ok _ _ _ _ _ (update_dollar s st hs)]
    exact feed_body body hbody s [""] 0 0 hne (by omega)
  -- run up to and including the star
  have hmidrun : MicropyGPS.feed s ('$' :: (body ++ ['*'])) =
      .ok (StarSt s (bodySegs [""] body) (body.foldl (fun a c => a ^^^ c.toNat) 0)
        (0 + body.length + 1)) := by
    have : ('$' :: (body ++ ['*'])) = ('$' :: body) ++ ['*'] := by simp
    rw [this, feed_append_ok _ _ _ _ hbodyrun,
      feed_cons_ok _ _ _ _ _ (update_star_mid s _ _ _ hB)]
    rfl
  constructor
  · exact ⟨_, _, hmidrun, rfl, by simp [xorCodes], rfl⟩
  · -- continue past the star
    have hsplit : ('$' :: body ++ '*' :: [c1, c2]) = ('$' :: (body ++ ['*'])) ++ [c1, c2] := by
      simp
    rw [hsplit, feed_append_ok _ _ _ _ hmidrun] at hrun
    have hcs1 := update_cs1 s (bodySegs [""] body)
      (body.foldl (fun a c => a ^^^ c.toNat) 0) (0 + body.length + 1) c1
      h1r h1d h1s h1c (by simp at hlen ⊢; omega)
    rw [feed_cons_ok _ _ _ _ _ hcs1] at hrun
    -- hrun : feed Cs1 [c2] = .ok sF; expose the last update call
    rw [feed_cons] at hrun
    cases hupd : MicropyGPS.update ({ s with
        stream := some ⟨bodySegs [""] body ++ [("" : String).push c1],
          body.foldl (fun a c => a ^^^ c.toNat) 0, false, 0 + body.length + 1 + 1⟩
        active_segment := (bodySegs [""] body).length
        sentence_active := true }) c2 with
    | error e => rw [hupd] at hrun; simp [MicropyGPS.feed] at hrun
    | ok p =>
      rw [hupd] at hrun
      simp [MicropyGPS.feed] at hrun
      obtain ⟨p1, p2⟩ : p.1 = sF ∧ True := ⟨hrun, trivial⟩
      by_cases hhex : pyIntHex2 ((("" : String).push c1).push c2) =
          some ((body.foldl (fun a c => a ^^^ c.toNat) 0 : Nat) : Int)
      · obtain ⟨ho, hclean⟩ := update_cs2_accept s (bodySegs [""] body)
          (body.foldl (fun a c => a ^^^ c.toNat) 0) (0 + body.length + 1 + 1)
          (("" : String).push c1) c2 h2r h2d h2s h2c rfl hhex p.1 p.2
          (by rw [← hupd])
        constructor
        · intro _
          exact hhex
        · intro _
          rw [← p1]
          exact hclean
      · obtain ⟨u, hru, huc⟩ := update_cs2_reject s (bodySegs [""] body)
          (body.foldl (fun a c => a ^^^ c.toNat) 0) (0 + body.length + 1 + 1)
          (("" : String).push c1) c2 h2r h2d h2s h2c rfl hhex
        rw [hupd] at hru
        injection hru with hru
        constructor
        · intro hcon
          have hup : p.1 = u := by simpa using congrArg Prod.fst hru
          rw [← hup, p1, hcon] at huc
          omega
        · intro hcon
          exact absurd hcon hhex

/-- C3 counterexample: the claim quantifies over every sentence, but a
sentence whose body has 89 characters is force-aborted by the length
ceiling on the first checksum character, so it is never accepted even
though its two checksum characters (`"41"`) parse to exactly the XOR of the
body (89 × `'A'` = 0x41).  The accept-iff-checksum-matches equivalence is
therefore false for this sentence. -/
theorem claim3_counterexample :
    xorCodes c3Body = 65 ∧
    pyIntHex2 (String.mk ['4', '1']) = some ((65 : Nat) : Int) ∧
    readyState.clean_sentences = 0 ∧
    (MicropyGPS.feed readyState ('$' :: c3Body ++ '*' :: ['4', '1'])).map
        (fun sf => (sf.clean_sentences, sf.sentence_active)) = .ok (0, false) := by
  refine ⟨by decide, by decide, by decide, by decide⟩

/-- Witness for C3 amended on the concrete sentence `$AB*03`
(XOR of `"AB"` is 3). -/
theorem claim3_amended_witness :
    readyState.stream = some ⟨[""], 0, true, 0⟩ ∧
    (∀ c ∈ "AB".data, inRange c = true ∧ c ≠ '$' ∧ c ≠ '*') ∧
    "AB".data.length ≤ 88 ∧
    MicropyGPS.feed readyState ('$' :: "AB".data ++ '*' :: ['0', '3']) = .ok c3WitFinal ∧
    ((∃ sMid stMid, MicropyGPS.feed readyState ('$' :: "AB".data ++ ['*']) = .ok sMid ∧
        sMid.stream = some stMid ∧ stMid.crc_xor = xorCodes "AB".data ∧
        stMid.process_crc = false) ∧
      (c3WitFinal.clean_sentences = readyState.clean_sentences + 1 ↔
        pyIntHex2 (String.mk ['0', '3']) = some ((xorCodes "AB".data : Nat) : Int))) :=
  ⟨by decide, by decide, by decide, by decide,
    claim3_amended_checksum readyState ⟨[""], 0, true, 0⟩ (by decide) "AB".data (by decide)
      (by decide) '0' '3' (by decide) (by decide) (by decide) (by decide) (by decide)
      (by decide) (by decide) (by decide) c3WitFinal (by decide)⟩

lemma gprmc_rel (s1 s2 : GPSState) (hst : s2.stream = s1.stream)
    (hoff : s2.local_offset = s1.local_offset) :
    (∃ e, MicropyGPS.gprmc s1 = .error e ∧ MicropyGPS.gprmc s2 = .error e) ∨
    (∃ u1 u2 b, MicropyGPS.gprmc s1 = .ok (u1, b) ∧ MicropyGPS.gprmc s2 = .ok (u2, b) ∧
      DataRel s1 u1 s2 u2) := by
  unfold MicropyGPS.gprmc
  rw [hst, hoff]
  iterate 22 (all_goals (try (first | split | (simp only []; split))))
  all_goals
    (first
      | exact Or.inl ⟨_, rfl, rfl⟩
      | (refine Or.inr ⟨_, _, _, rfl, rfl, ?_⟩
         unfold DataRel
         and_intros
         all_goals
           (first
             | exact Or.inl rfl
             | exact Or.inr ⟨rfl, rfl⟩
             | exact ⟨0, rfl, rfl⟩)))

lemma gpgga_rel (s1 s2 : GPSState) (hst : s2.stream = s1.stream)
    (hoff : s2.local_offset = s1.local_offset) :
    (∃ e, MicropyGPS.gpgga s1 = .error e ∧ MicropyGPS.gpgga s2 = .error e) ∨
    (∃ u1 u2 b, MicropyGPS.gpgga s1 = .ok (u1, b) ∧ MicropyGPS.gpgga s2 = .ok (u2, b) ∧
      DataRel s1 u1 s2 u2) := by
  unfold MicropyGPS.gpgga
  rw [hst, hoff]
  iterate 22 (all_goals (try (first | split | (simp only []; split))))
  all_goals
    (first
      | exact Or.inl ⟨_, rfl, rfl⟩
      | (refine Or.inr ⟨_, _, _, rfl, rfl, ?_⟩
         unfold DataRel
         and_intros
         all_goals
           (first
             | exact Or.inl rfl
             | exact Or.inr ⟨rfl, rfl⟩
             | exact ⟨0, rfl, rfl⟩)))

lemma DataRel_trans (s1 m1 u1 s2 m2 u2 : GPSState)
    (h1 : DataRel s1 m1 s2 m2) (h2 : DataRel m1 u1 m2 u2) : DataRel s1 u1 s2 u2 := by
  unfold DataRel at h1 h2 ⊢
  obtain ⟨a1, a2, a3, a4, a5, a6, a7, a8, a9, a10, a11, a12, ⟨d1, hd1, hd2⟩, ⟨e1, he1, he2⟩⟩ := h1
  obtain ⟨b1, b2, b3, b4, b5, b6, b7, b8, b9, b10, b11, b12, ⟨d2, hd3, hd4⟩, ⟨e2, he3, he4⟩⟩ := h2
  and_intros
  · rcases b1 with h | ⟨ha, hb⟩
    · exact Or.inl h
    · rcases a1 with h' | ⟨ha', hb'⟩
      · exact Or.inl (by rw [ha, hb, h'])
      · exact Or.inr ⟨by rw [ha, ha'], by rw [hb, hb']⟩
  · rcases b2 with h | ⟨ha, hb⟩
    · exact Or.inl h
    · rcases a2 with h' | ⟨ha', hb'⟩
      · exact Or.inl (by rw [ha, hb, h'])
      · exact Or.inr ⟨by rw [ha, ha'], by rw [hb, hb']⟩
  · rcases b3 with h | ⟨ha, hb⟩
    · exact Or.inl h
    · rcases a3 with h' | ⟨ha', hb'⟩
      · exact Or.inl (by rw [ha, hb, h'])
      · exact Or.inr ⟨by rw [ha, ha'], by rw [hb, hb']⟩
  · rcases b4 with h | ⟨ha, hb⟩
    · exact Or.inl h
    · rcases a4 with h' | ⟨ha', hb'⟩
      · exact Or.inl (by rw [ha, hb, h'])
      · exact Or.inr ⟨by rw [ha, ha'], by rw [hb, hb']⟩
  · rcases b5 with h | ⟨ha, hb⟩
    · exact Or.inl h
    · rcases a5 with h' | ⟨ha', hb'⟩
      · exact Or.inl (by rw [ha, hb, h'])
      · exact Or.inr ⟨by rw [ha, ha'], by rw [hb, hb']⟩
  · rcases b6 with h | ⟨ha, hb⟩
    · exact Or.inl h
    · rcases a6 with h' | ⟨ha', hb'⟩
      · exact Or.inl (by rw [ha, hb, h'])
      · exact Or.inr ⟨by rw [ha, ha'], by rw [hb, hb']⟩
  · rcases b7 with h | ⟨ha, hb⟩
    · exact Or.inl h
    · rcases a7 with h' | ⟨ha', hb'⟩
      · exact Or.inl (by rw [ha, hb, h'])
      · exact Or.inr ⟨by rw [ha, ha'], by rw [hb, hb']⟩
  · rcases b8 with h | ⟨ha, hb⟩
    · exact Or.inl h
    · rcases a8 with h' | ⟨ha', hb'⟩
      · exact Or.inl (by rw [ha, hb, h'])
      · exact Or.inr ⟨by rw [ha, ha'], by rw [hb, hb']⟩
  · rcases b9 with h | ⟨ha, hb⟩
    · exact Or.inl h
    · rcases a9 with h' | ⟨ha', hb'⟩
      · exact Or.inl (by rw [ha, hb, h'])
      · exact Or.inr ⟨by rw [ha, ha'], by rw [hb, hb']⟩
  · rcases b10 with h | ⟨ha, hb⟩
    · exact Or.inl h
    · rcases a10 with h' | ⟨ha', hb'⟩
      · exact Or.inl (by rw [ha, hb, h'])
      · exact Or.inr ⟨by rw [ha, ha'], by rw [hb, hb']⟩
  · rcases b11 with h | ⟨ha, hb⟩
    · exact Or.inl h
    · rcases a11 with h' | ⟨ha', hb'⟩
      · exact Or.inl (by rw [ha, hb, h'])
      · exact Or.inr ⟨by rw [ha, ha'], by rw [hb, hb']⟩
  · rcases b12 with h | ⟨ha, hb⟩
    · exact Or.inl h
    · rcases a12 with h' | ⟨ha', hb'⟩
      · exact Or.inl (by rw [ha, hb, h'])
      · exact Or.inr ⟨by rw [ha, ha'], by rw [hb, hb']⟩
  · exact ⟨d1 + d2, by omega, by omega⟩
  · exact ⟨e1 + e2, by omega, by omega⟩

lemma DataRel_id (s1 s2 : GPSState) : DataRel s1 s1 s2 s2 := by
  unfold DataRel
  and_intros
  all_goals (first | exact Or.inr ⟨rfl, rfl⟩ | exact ⟨0, rfl, rfl⟩)

lemma validDispatch_rel (sa sb : GPSState) (segs : List String)
    (hst : sb.stream = sa.stream) (hoff : sb.local_offset = sa.local_offset) :
    (∃ e, MicropyGPS.validDispatch sa segs = .error e ∧
      MicropyGPS.validDispatch sb segs = .error e) ∨
    (∃ ua ub, MicropyGPS.validDispatch sa segs = .ok ua ∧
      MicropyGPS.validDispatch sb segs = .ok ub ∧
      ua.stream = sa.stream ∧ ub.stream = sb.stream ∧
      ua.active_segment = sa.active_segment ∧ ub.active_segment = sb.active_segment ∧
      ua.sentence_active = sa.sentence_active ∧ ub.sentence_active = sb.sentence_active ∧
      ua.local_offset = sa.local_offset ∧ ub.local_offset = sb.local_offset ∧
      ua.clean_sentences = sa.clean_sentences ∧ ub.clean_sentences = sb.clean_sentences ∧
      ua.crc_fails = sa.crc_fails ∧ ub.crc_fails = sb.crc_fails ∧
      DataRel sa ua sb ub) := by
  unfold MicropyGPS.validDispatch
  split
  · exact Or.inl ⟨_, rfl, rfl⟩
  · split
    · rcases gprmc_rel sa sb hst hoff with ⟨e, hE1, hE2⟩ | ⟨u1, u2, b, hO1, hO2, hrel⟩
      · exact Or.inl ⟨e, by rw [hE1]; rfl, by rw [hE2]; rfl⟩
      · obtain ⟨f1a, f1b, f1c, f1d, f1e, f1f, -, -⟩ := gprmc_parse_frame sa (u1, b) hO1
        obtain ⟨f2a, f2b, f2c, f2d, f2e, f2f, -, -⟩ := gprmc_parse_frame sb (u2, b) hO2
        exact Or.inr ⟨u1, u2, by rw [hO1]; rfl, by rw [hO2]; rfl,
          f1c, f2c, f1e, f2e, f1d, f2d, f1f, f2f, f1a, f2a, f1b, f2b, hrel⟩
    · split
      · rcases gpgga_rel sa sb hst hoff with ⟨e, hE1, hE2⟩ | ⟨u1, u2, b, hO1, hO2, hrel⟩
        · exact Or.inl ⟨e, by rw [hE1]; rfl, by rw [hE2]; rfl⟩
        · obtain ⟨f1a, f1b, f1c, f1d, f1e, f1f, -, -⟩ := gpgga_parse_frame sa (u1, b) hO1
          obtain ⟨f2a, f2b, f2c, f2d, f2e, f2f, -, -⟩ := gpgga_parse_frame sb (u2, b) hO2
          exact Or.inr ⟨u1, u2, by rw [hO1]; rfl, by rw [hO2]; rfl,
            f1c, f2c, f1e, f2e, f1d, f2d, f1f, f2f, f1a, f2a, f1b, f2b, hrel⟩
      · exact Or.inr ⟨sa, sb, rfl, rfl, rfl, rfl, rfl, rfl, rfl, rfl, rfl, rfl, rfl, rfl,
          rfl, rfl, DataRel_id sa sb⟩

lemma DataRel_frame (s1 s2 u1 u2 : GPSState) (d1 d2 : Nat)
    (h : (u1.timestamp = s1.timestamp ∧ u2.timestamp = s2.timestamp) ∧
      (u1.date = s1.date ∧ u2.date = s2.date) ∧
      (u1._latitude = s1._latitude ∧ u2._latitude = s2._latitude) ∧
      (u1._longitude = s1._longitude ∧ u2._longitude = s2._longitude) ∧
      (u1.speed = s1.speed ∧ u2.speed = s2.speed) ∧
      (u1.course = s1.course ∧ u2.course = s2.course) ∧
      (u1.altitude = s1.altitude ∧ u2.altitude = s2.altitude) ∧
      (u1.geoid_height = s1.geoid_height ∧ u2.geoid_height = s2.geoid_height) ∧
      (u1.satellites_in_use = s1.satellites_in_use ∧
        u2.satellites_in_use = s2.satellites_in_use) ∧
      (u1.hdop = s1.hdop ∧ u2.hdop = s2.hdop) ∧
      (u1.valid = s1.valid ∧ u2.valid = s2.valid) ∧
      (u1.fix_stat = s1.fix_stat ∧ u2.fix_stat = s2.fix_stat) ∧
      (u1.clean_sentences = s1.clean_sentences + d1 ∧
        u2.clean_sentences = s2.clean_sentences + d1) ∧
      (u1.crc_fails = s1.crc_fails + d2 ∧ u2.crc_fails = s2.crc_fails + d2)) :
    DataRel s1 u1 s2 u2 := by
  unfold DataRel
  obtain ⟨hts, hdt, hla, hlo, hsp, hco, hal, hgh, hsu, hhd, hva, hfx, qcl, qcf⟩ := h
  exact ⟨Or.inr hts, Or.inr hdt, Or.inr hla, Or.inr hlo, Or.inr hsp, Or.inr hco,
    Or.inr hal, Or.inr hgh, Or.inr hsu, Or.inr hhd, Or.inr hva, Or.inr hfx,
    ⟨d1, qcl.1, qcl.2⟩, ⟨d2, qcf.1, qcf.2⟩⟩

lemma sentenceEnd_rel (s1 s2 sa sb : GPSState) (st2 : StreamState) (v : Bool)
    (hsa : sa.stream = some st2) (hsb : sb.stream = some st2)
    (hA2 : sb.active_segment = sa.active_segment)
    (hA3 : sb.sentence_active = sa.sentence_active)
    (hA4 : sb.local_offset = sa.local_offset)
    (hD : DataRel s1 sa s2 sb) :
    (∃ e, MicropyGPS.sentenceEnd sa st2 v = .error e ∧
      MicropyGPS.sentenceEnd sb st2 v = .error e) ∨
    (∃ u1 u2 o, MicropyGPS.sentenceEnd sa st2 v = .ok (u1, o) ∧
      MicropyGPS.sentenceEnd sb st2 v = .ok (u2, o) ∧
      (u2.stream = u1.stream ∧ u2.active_segment = u1.active_segment ∧
        u2.sentence_active = u1.sentence_active ∧ u2.local_offset = u1.local_offset) ∧
      DataRel s1 u1 s2 u2) := by
  unfold MicropyGPS.sentenceEnd
  cases v with
  | false =>
    simp only [Bool.false_eq_true, if_false, ite_false, hsa, hsb]
    by_cases hlim : st2.char_count > SENTENCE_LIMIT
    · simp only [hlim, if_true, ite_true]
      refine Or.inr ⟨_, _, _, rfl, rfl, ⟨rfl, hA2, rfl, hA4⟩, ?_⟩
      refine DataRel_trans s1 sa _ s2 sb _ hD ?_
      exact DataRel_frame sa sb _ _ 0 0
                (by and_intros <;> rfl)
    · simp only [hlim, if_false, ite_false]
      exact Or.inr ⟨sa, sb, none, rfl, rfl, ⟨by rw [hsa, hsb], hA2, hA3, hA4⟩, hD⟩
  | true =>
    simp only [if_true, ite_true]
    have hst3 : ({ sb with
        clean_sentences := sb.clean_sentences + 1
        sentence_active := false } : GPSState).stream = ({ sa with
        clean_sentences := sa.clean_sentences + 1
        sentence_active := false } : GPSState).stream := by
      show sb.stream = sa.stream
      rw [hsa, hsb]
    have hoff3 : ({ sb with
        clean_sentences := sb.clean_sentences + 1
        sentence_active := false } : GPSState).local_offset = ({ sa with
        clean_sentences := sa.clean_sentences + 1
        sentence_active := false } : GPSState).local_offset := hA4
    rcases validDispatch_rel
        ({ sa with clean_sentences := sa.clean_sentences + 1, sentence_active := false })
        ({ sb with clean_sentences := sb.clean_sentences + 1, sentence_active := false })
        st2.gps_segments hst3 hoff3 with
      ⟨e, hE1, hE2⟩ | ⟨ua, ub, hO1, hO2, p1, p2, p3, p4, p5, p6, p7, p8, p9, p10, p11, p12, hrel⟩
    · rw [hE1, hE2]
      exact Or.inl ⟨e, rfl, rfl⟩
    · rw [hO1, hO2]
      have hua : ua.stream = some st2 := by
        rw [p1]
        exact hsa
      have hub : ub.stream = some st2 := by
        rw [p2]
        exact hsb
      simp only [hua, hub, Option.map_some']
      by_cases hlim : st2.char_count > SENTENCE_LIMIT
      · simp only [hlim, if_true, ite_true]
        refine Or.inr ⟨_, _, _, rfl, rfl, ⟨rfl, by simp [p3, p4, hA2], rfl, ?_⟩, ?_⟩
        · show ub.local_offset = ua.local_offset
          rw [p7, p8, hA4]
        · refine DataRel_trans s1 sa _ s2 sb _ hD ?_
          refine DataRel_trans sa
              ({ sa with clean_sentences := sa.clean_sentences + 1, sentence_active := false }) _ sb
              ({ sb with clean_sentences := sb.clean_sentences + 1, sentence_active := false }) _
              (DataRel_frame sa sb _ _ 1 0
                (by and_intros <;> rfl)) ?_
          refine DataRel_trans _ ua _ _ ub _ hrel ?_
          exact DataRel_frame ua ub _ _ 0 0
                (by and_intros <;> rfl)
      · simp only [hlim, if_false, ite_false]
        refine Or.inr ⟨_, _, _, rfl, rfl, ⟨rfl, by simp [p3, p4, hA2], ?_, ?_⟩, ?_⟩
        · show ub.sentence_active = ua.sentence_active
          rw [p5, p6]
        · show ub.local_offset = ua.local_offset
          rw [p7, p8, hA4]
        · refine DataRel_trans s1 sa _ s2 sb _ hD ?_
          refine DataRel_trans sa
              ({ sa with clean_sentences := sa.clean_sentences + 1, sentence_active := false }) _ sb
              ({ sb with clean_sentences := sb.clean_sentences + 1, sentence_active := false }) _
              (DataRel_frame sa sb _ _ 1 0
                (by and_intros <;> rfl)) ?_
          refine DataRel_trans _ ua _ _ ub _ hrel ?_
          exact DataRel_frame ua ub _ _ 0 0
                (by and_intros <;> rfl)

lemma update_rel (s1 s2 : GPSState) (c : Char)
    (h1 : s2.stream = s1.stream) (h2 : s2.active_segment = s1.active_segment)
    (h3 : s2.sentence_active = s1.sentence_active) (h4 : s2.local_offset = s1.local_offset) :
    (∃ e, MicropyGPS.update s1 c = .error e ∧ MicropyGPS.update s2 c = .error e) ∨
    (∃ u1 u2 o, MicropyGPS.update s1 c = .ok (u1, o) ∧ MicropyGPS.update s2 c = .ok (u2, o) ∧
      (u2.stream = u1.stream ∧ u2.active_segment = u1.active_segment ∧
        u2.sentence_active = u1.sentence_active ∧ u2.local_offset = u1.local_offset) ∧
      DataRel s1 u1 s2 u2) := by
  by_cases hin : 10 ≤ c.toNat ∧ c.toNat ≤ 126
  case neg =>
    refine Or.inr ⟨s1, s2, none, ?_, ?_, ⟨h1, h2, h3, h4⟩, DataRel_id s1 s2⟩
    · unfold MicropyGPS.update
      simp [hin]
    · unfold MicropyGPS.update
      simp [hin]
  case pos =>
  cases hstream : s1.stream with
  | none =>
    have hstream2 : s2.stream = none := by rw [h1, hstream]
    refine Or.inl ⟨.attributeError, ?_, ?_⟩
    · unfold MicropyGPS.update
      simp [hin, hstream]
    · unfold MicropyGPS.update
      simp [hin, hstream2]
  | some st =>
    have hstream2 : s2.stream = some st := by rw [h1, hstream]
    by_cases hdol : c = '$'
    · subst hdol
      refine Or.inr ⟨MidSt s1 [""] 0 0, MidSt s2 [""] 0 0, none,
        update_dollar s1 st hstream, update_dollar s2 st hstream2,
        ⟨rfl, rfl, rfl, h4⟩, ?_⟩
      unfold DataRel MidSt
      and_intros
      all_goals (first | exact Or.inr ⟨rfl, rfl⟩ | exact ⟨0, rfl, rfl⟩)
    · by_cases hact : s1.sentence_active = true
      case neg =>
        have hact1 : s1.sentence_active = false := by simpa using hact
        have hact2 : s2.sentence_active = false := by rw [h3, hact1]
        refine Or.inr ⟨_, _, none,
          update_inactive s1 st c hstream hact1 (by simp [inRange]; omega) hdol,
          update_inactive s2 st c hstream2 hact2 (by simp [inRange]; omega) hdol,
          ⟨rfl, h2, by rw [hact1, hact2], h4⟩, ?_⟩
        unfold DataRel
        and_intros
        all_goals (first | exact Or.inr ⟨rfl, rfl⟩ | exact ⟨0, rfl, rfl⟩)
      case pos =>
        have hact2 : s2.sentence_active = true := by rw [h3, hact]
        by_cases hstar : c = '*'
        · subst hstar
          refine Or.inr ⟨{ s1 with
              sentence_active := true
              active_segment := s1.active_segment + 1
              stream := some { st with
                process_crc := false
                gps_segments := st.gps_segments ++ [""]
                char_count := st.char_count + 1 } },
            { s2 with
              sentence_active := true
              active_segment := s1.active_segment + 1
              stream := some { st with
                process_crc := false
                gps_segments := st.gps_segments ++ [""]
                char_count := st.char_count + 1 } }, none, ?_, ?_, ⟨rfl, rfl, rfl, h4⟩, ?_⟩
          · unfold MicropyGPS.update
            simp [hin, hstream, hact]
          · unfold MicropyGPS.update
            simp [hin, hstream2, hact2, h2]
          · unfold DataRel
            and_intros
            all_goals (first | exact Or.inr ⟨rfl, rfl⟩ | exact ⟨0, rfl, rfl⟩)
        · -- the ',' branch and the ordinary-data branch end in the common tail
          unfold MicropyGPS.update
          simp only [hin, hstream, hstream2, hact, hact2, h2, h3, h4, hdol, hstar,
            if_true, if_false, ite_true, ite_false, true_and, and_self]
          by_cases hcomma : c = ','
          · simp only [if_pos hcomma]
            refine sentenceEnd_rel s1 s2 _ _ _ false rfl rfl rfl
              rfl rfl ?_
            exact DataRel_frame s1 s2 _ _ 0 0
                (by and_intros <;> rfl)
          · simp only [if_neg hcomma]
            cases hle : listGet st.gps_segments s1.active_segment with
            | error e =>
              simp only [hle]
              exact Or.inl ⟨e, rfl, rfl⟩
            | ok seg =>
              simp only [hle]
              by_cases hpc : st.process_crc = false
              · simp only [if_pos hpc]
                by_cases hlen : (seg.push c).length = 2
                · simp only [if_pos hlen]
                  cases hhex : pyIntHex2 (seg.push c) with
                  | none =>
                    simp only [hhex]
                    exact sentenceEnd_rel s1 s2 _ _ _ false rfl rfl
                      rfl rfl rfl
                      (DataRel_frame s1 s2 _ _ 0 0
                (by and_intros <;> rfl))
                  | some fcrc =>
                    simp only [hhex]
                    by_cases hcrc : (st.crc_xor : Int) = fcrc
                    · simp only [if_pos hcrc]
                      exact sentenceEnd_rel s1 s2 _ _ _ true rfl rfl
                        rfl rfl rfl
                        (DataRel_frame s1 s2 _ _ 0 0
                (by and_intros <;> rfl))
                    · simp only [if_neg hcrc]
                      exact sentenceEnd_rel s1 s2 _ _ _ false rfl rfl
                        rfl rfl rfl
                        (DataRel_frame s1 s2 _ _ 0 1
                (by and_intros <;> rfl))
                · simp only [if_neg hlen]
                  exact sentenceEnd_rel s1 s2 _ _ _ false rfl rfl
                    rfl rfl rfl
                    (DataRel_frame s1 s2 _ _ 0 0
                (by and_intros <;> rfl))
              · simp only [if_neg hpc]
                exact sentenceEnd_rel s1 s2 _ _ _ false rfl rfl
                  rfl rfl rfl
                  (DataRel_frame s1 s2 _ _ 0 0
                (by and_intros <;> rfl))

lemma feed_rel (cs : List Char) (s1 s2 : GPSState)
    (h1 : s2.stream = s1.stream) (h2 : s2.active_segment = s1.active_segment)
    (h3 : s2.sentence_active = s1.sentence_active) (h4 : s2.local_offset = s1.local_offset) :
    (∃ e, MicropyGPS.feed s1 cs = .error e ∧ MicropyGPS.feed s2 cs = .error e) ∨
    (∃ u1 u2, MicropyGPS.feed s1 cs = .ok u1 ∧ MicropyGPS.feed s2 cs = .ok u2 ∧
      (u2.stream = u1.stream ∧ u2.active_segment = u1.active_segment ∧
        u2.sentence_active = u1.sentence_active ∧ u2.local_offset = u1.local_offset) ∧
      DataRel s1 u1 s2 u2) := by
  induction cs generalizing s1 s2 with
  | nil => exact Or.inr ⟨s1, s2, rfl, rfl, ⟨h1, h2, h3, h4⟩, DataRel_id s1 s2⟩
  | cons c rest ih =>
    rcases update_rel s1 s2 c h1 h2 h3 h4 with
      ⟨e, hE1, hE2⟩ | ⟨u1, u2, o, hO1, hO2, ⟨a1, a2, a3, a4⟩, hD⟩
    · refine Or.inl ⟨e, ?_, ?_⟩
      · rw [feed_cons, hE1]
      · rw [feed_cons, hE2]
    · have hf1 : MicropyGPS.feed s1 (c :: rest) = MicropyGPS.feed u1 rest :=
        feed_cons_ok s1 c rest u1 o hO1
      have hf2 : MicropyGPS.feed s2 (c :: rest) = MicropyGPS.feed u2 rest :=
        feed_cons_ok s2 c rest u2 o hO2
      rcases ih u1 u2 a1 a2 a3 a4 with
        ⟨e, hE1', hE2'⟩ | ⟨v1, v2, hV1, hV2, hAg, hD'⟩
      · exact Or.inl ⟨e, by rw [hf1, hE1'], by rw [hf2, hE2']⟩
      · exact Or.inr ⟨v1, v2, by rw [hf1, hV1], by rw [hf2, hV2], hAg,
          DataRel_trans s1 u1 v1 s2 u2 v2 hD hD'⟩

/-- C4 counterexample: the claim quantifies over every parser state, but on
a freshly constructed object the in-range branch's first statement
(`self.char_count += 1`) raises `AttributeError` before the `'$'` test is
ever reached, so the start marker does not reset anything there. -/
theorem claim4_counterexample :
    MicropyGPS.update (MicropyGPS.pyInit 0 "ddm") '$' = .error .attributeError := by
  decide

/-- C4 (amended): restricted to parser states whose late-initialized stream
attributes exist (any state after the first `new_sentence`).  Part one:
feeding `'$'` resets all per-sentence state — the segment list becomes
`[""]`, the segment index 0, the checksum accumulator 0, checksum
accumulation is switched on, the character count is reset to 0, and the
sentence is marked active.  Part two: two such parsers with the same
configured local offset, fed the same characters from a `'$'` onward,
decode identically regardless of any prior (possibly corrupted) input:
either both runs raise the same exception, or both succeed with identical
parser-progress state (stream attributes, segment index, active flag), and
every fix-data field is either written to the same value on both sides or
left untouched on both sides, with the success/CRC-failure counters
advancing by the same amounts. -/
theorem claim4_amended_resync (s1 s2 : GPSState) (st1 st0 : StreamState) (cs : List Char)
    (hs1 : s1.stream = some st1) (hs2 : s2.stream = some st0)
    (hoff : s2.local_offset = s1.local_offset) :
    MicropyGPS.update s1 '$' =
      .ok ({ s1 with
        stream := some ⟨[""], 0, true, 0⟩
        active_segment := 0
        sentence_active := true }, none) ∧
    ((∃ e, MicropyGPS.feed s1 ('$' :: cs) = .error e ∧
        MicropyGPS.feed s2 ('$' :: cs) = .error e) ∨
      (∃ u1 u2, MicropyGPS.feed s1 ('$' :: cs) = .ok u1 ∧
        MicropyGPS.feed s2 ('$' :: cs) = .ok u2 ∧
        u2.stream = u1.stream ∧ u2.active_segment = u1.active_segment ∧
        u2.sentence_active = u1.sentence_active ∧
        DataRel s1 u1 s2 u2)) := by
  constructor
  · exact update_dollar s1 st1 hs1
  · have hf1 : MicropyGPS.feed s1 ('$' :: cs) = MicropyGPS.feed (MidSt s1 [""] 0 0) cs :=
      feed_cons_ok s1 '$' cs (MidSt s1 [""] 0 0) none (update_dollar s1 st1 hs1)
    have hf2 : MicropyGPS.feed s2 ('$' :: cs) = MicropyGPS.feed (MidSt s2 [""] 0 0) cs :=
      feed_cons_ok s2 '$' cs (MidSt s2 [""] 0 0) none (update_dollar s2 st0 hs2)
    rcases feed_rel cs (MidSt s1 [""] 0 0) (MidSt s2 [""] 0 0) rfl rfl rfl hoff with
      ⟨e, hE1, hE2⟩ | ⟨u1, u2, hV1, hV2, hAg, hD⟩
    · exact Or.inl ⟨e, by rw [hf1, hE1], by rw [hf2, hE2]⟩
    · refine Or.inr ⟨u1, u2, by rw [hf1, hV1], by rw [hf2, hV2],
        hAg.1, hAg.2.1, hAg.2.2.1, ?_⟩
      refine DataRel_trans s1 (MidSt s1 [""] 0 0) u1 s2 (MidSt s2 [""] 0 0) u2 ?_ hD
      exact DataRel_frame s1 s2 _ _ 0 0
                (by and_intros <;> rfl)

/-- C4 amended witness: a ready parser and a mid-sentence parser holding
corrupted segments, both fed `'$'` followed by the same characters. -/
theorem claim4_amended_witness :
    readyState.stream = some ⟨[""], 0, true, 0⟩ ∧
    c4S2.stream = some c4St0 ∧
    c4S2.local_offset = readyState.local_offset ∧
    (MicropyGPS.update readyState '$' =
      .ok ({ readyState with
        stream := some ⟨[""], 0, true, 0⟩
        active_segment := 0
        sentence_active := true }, none) ∧
    ((∃ e, MicropyGPS.feed readyState ('$' :: c4Cs) = .error e ∧
        MicropyGPS.feed c4S2 ('$' :: c4Cs) = .error e) ∨
      (∃ u1 u2, MicropyGPS.feed readyState ('$' :: c4Cs) = .ok u1 ∧
        MicropyGPS.feed c4S2 ('$' :: c4Cs) = .ok u2 ∧
        u2.stream = u1.stream ∧ u2.active_segment = u1.active_segment ∧
        u2.sentence_active = u1.sentence_active ∧
        DataRel readyState u1 c4S2 u2))) :=
  ⟨rfl, rfl, rfl,
    claim4_amended_resync readyState c4S2 ⟨[""], 0, true, 0⟩ c4St0 c4Cs rfl rfl rfl⟩
